import Mathlib

/-!
Verification of the EDI X12 generator (src/edi_generator.py).

The Python source is shallowly embedded: every call to the process-wide
pseudo-random source (`random.randint`, `random.choice`, `random.sample`,
`random.uniform`, `random.random`) is modelled by an explicit parameter
holding the drawn value, and the current clock (`datetime.now()`) by
explicit parameters holding the already-formatted date/time strings.
Python `str` values are Lean `String`s, Python `int`s are `Nat`s rendered
with `Nat.repr` (the embedding of Python `str(int)`), and the monetary
`float` arithmetic of the 835 generator is modelled over `ℚ` with explicit
rounding to cents.
-/

/-- Python `str.ljust(width, fill)`: pad on the right with `fill` up to `width`. -/
def ljust (s : String) (width : Nat) (fill : Char) : String :=
  s ++ String.mk (List.replicate (width - s.length) fill)

/-- Source `pad(value, length, fill=" ")`: `str(value)[:length].ljust(length, fill)` —
truncate to `length` characters, then pad left-aligned. -/
def pad (value : String) (length : Nat) (fill : Char := ' ') : String :=
  ljust (value.take length) length fill

/-- Python `str.zfill(width)`: left-pad with `'0'` up to `width`, keeping a
leading sign in front of the inserted zeros. -/
def zfill (s : String) (width : Nat) : String :=
  match s.data with
  | c :: rest =>
    if c = '-' ∨ c = '+' then
      String.mk (c :: (List.replicate (width - s.length) '0' ++ rest))
    else
      String.mk (List.replicate (width - s.length) '0') ++ s
  | [] => String.mk (List.replicate width '0')

/-- Source `control_number(digits)`:
`str(random.randint(1, 10**digits - 1)).zfill(digits)`.  The random draw is
the explicit argument `r`; the `randint` contract is `1 ≤ r ≤ 10^digits - 1`. -/
def control_number (digits : Nat) (r : Nat) : String :=
  zfill (Nat.repr r) digits

/-- A semantic body segment, the `(segment_id, *elements)` tuples the
transaction generators hand to `build_envelope`. -/
structure Seg where
  sid : String
  els : List String
deriving DecidableEq

/-- Rendering of one segment by `EDIBuilder.add`:
`element_sep.join([segment_id] + elements) + segment_term`. -/
def encodeSeg (sep term sid : String) (els : List String) : String :=
  String.intercalate sep (sid :: els) ++ term

/-- Source class `EDIBuilder` (delimiters plus the accumulated rendered segments). -/
structure EDIBuilder where
  element_sep : String := "*"
  segment_term : String := "~"
  sub_element_sep : String := ":"
  segments : List String := []
deriving DecidableEq

/-- Source `EDIBuilder.add`: render the segment and append it. -/
def EDIBuilder.add (b : EDIBuilder) (segment_id : String) (elements : List String) :
    EDIBuilder :=
  { b with segments := b.segments ++ [encodeSeg b.element_sep b.segment_term segment_id elements] }

/-- Source `EDIBuilder.segment_count`. -/
def EDIBuilder.segment_count (b : EDIBuilder) : Nat :=
  b.segments.length

/-- Source `EDIBuilder.render(pretty)`: join all segments with a newline in
pretty mode and with the empty string in compact mode. -/
def EDIBuilder.render (b : EDIBuilder) (pretty : Bool) : String :=
  String.intercalate (if pretty then "\n" else "") b.segments

/-- Source table `TXN_META`: transaction type key to
(GS functional ID code, ST transaction set ID, GS version). -/
def TXN_META : String → Option (String × String × String)
  | "837P" => some ("HC", "837", "005010X222A1")
  | "835" => some ("HP", "835", "005010X221A1")
  | "270" => some ("HS", "270", "005010X279A1")
  | "271" => some ("HB", "271", "005010X279A1")
  | "278" => some ("HI", "278", "005010X217")
  | "999" => some ("FA", "999", "005010X231A1")
  | _ => none

/-- The draws of `build_envelope`: three `random.randint` results for the
control numbers and the formatted `datetime.now()` strings. -/
structure EnvRand where
  isaR : Nat
  gsR : Nat
  stR : Nat
  dateYYMMDD : String
  dateYYYYMMDD : String
  timeHHMM : String
deriving DecidableEq

/-- Element list of the ISA segment emitted by `build_envelope` (source lines 778-792). -/
def isaElements (subSep senderId receiverId dateYYMMDD timeHHMM isaControl : String) :
    List String :=
  ["00", pad "" 10, "00", pad "" 10,
   "ZZ", pad senderId 15, "ZZ", pad receiverId 15,
   dateYYMMDD, timeHHMM, "^", "00501", isaControl, "0", "T", subSep]

/-- Element list of the GS segment (source lines 795-800). -/
def gsElements (funcCode senderId receiverId dateYYYYMMDD timeHHMM gsControl gsVersion :
    String) : List String :=
  [funcCode, senderId, receiverId, dateYYYYMMDD, timeHHMM, gsControl, "X", gsVersion]

/-- Element list of the ST segment (source line 803). -/
def stElements (stId stControl gsVersion : String) : List String :=
  [stId, stControl, gsVersion]

/-- Element list of the SE segment (source lines 810-811): `str(se_count)` and
the ST control number. -/
def seElements (seCount : Nat) (stControl : String) : List String :=
  [Nat.repr seCount, stControl]

/-- Element list of the GE segment (source line 814). -/
def geElements (gsControl : String) : List String :=
  ["1", gsControl]

/-- Element list of the IEA segment (source line 817). -/
def ieaElements (isaControl : String) : List String :=
  ["1", isaControl]

/-- Source `build_envelope`: wrap the body segments in ISA/GS/ST ... SE/GE/IEA.
An unknown transaction type raises `KeyError` at the `TXN_META` lookup before
anything is emitted, modelled by `none`. -/
def build_envelope (b : EDIBuilder) (senderId receiverId txnType : String)
    (transaction_segments : List Seg) (r : EnvRand) : Option EDIBuilder :=
  let isa_control := control_number 9 r.isaR
  let gs_control := control_number 4 r.gsR
  let st_control := zfill (control_number 4 r.stR) 4
  match TXN_META txnType with
  | none => none
  | some (func_code, st_id, gs_version) =>
    let b1 := b.add "ISA"
      (isaElements b.sub_element_sep senderId receiverId r.dateYYMMDD r.timeHHMM isa_control)
    let b2 := b1.add "GS"
      (gsElements func_code senderId receiverId r.dateYYYYMMDD r.timeHHMM gs_control gs_version)
    let b3 := b2.add "ST" (stElements st_id st_control gs_version)
    let b4 := transaction_segments.foldl (fun bb sg => bb.add sg.sid sg.els) b3
    let se_count := transaction_segments.length + 2
    let b5 := b4.add "SE" (seElements se_count st_control)
    let b6 := b5.add "GE" (geElements gs_control)
    let b7 := b6.add "IEA" (ieaElements isa_control)
    some b7

example : pad "ABCDEFGHIJKLMNOPQ" 15 = "ABCDEFGHIJKLMNO" := by decide
example : pad "AB" 5 = "AB   " := by decide
example : zfill "37" 4 = "0037" := by decide
example : control_number 4 37 = "0037" := by decide
example : encodeSeg "*" "~" "GE" (geElements "0042") = "GE*1*0042~" := by decide

/-- An entry of `PATIENT_NAMES`: (last, first, middle initial, gender, birth date). -/
structure Patient where
  last : String
  first : String
  mi : String
  gender : String
  dob : String
deriving DecidableEq

/-- An entry of `ADDRESSES`: (street, city, state, zip). -/
structure Address where
  street : String
  city : String
  state : String
  zip : String
deriving DecidableEq

/-- An entry of a provider-name pool: (last, first, credential). -/
structure Provider where
  last : String
  first : String
  cred : String
deriving DecidableEq

/-- An entry of a procedure-code pool: (CPT code, description, price). -/
structure Proc where
  cpt : String
  desc : String
  price : ℚ
deriving DecidableEq

/-- Python `round(x, 2)` modelled over `ℚ`: round to a whole number of cents. -/
def round2 (q : ℚ) : ℚ :=
  (round (q * 100) : ℤ) / 100

/-- Python `f"\x7bx:.2f\x7d"` modelled over `ℚ`: sign, integer part, dot, two cent digits. -/
def fmt2 (q : ℚ) : String :=
  let c : ℤ := round (q * 100)
  (if c < 0 then "-" else "") ++ Nat.repr (c.natAbs / 100) ++ "." ++
    zfill (Nat.repr (c.natAbs % 100)) 2

/-- Python `s.replace(" ", "")`. -/
def stripSpaces (s : String) : String :=
  String.mk (s.data.filter (fun c => !(c == ' ')))

/-- The sender/receiver ids the generators return: `name.replace(" ", "")[:15]`. -/
def idFromName (name : String) : String :=
  (stripSpaces name).take 15

/-- Python `num_claims = num_claims or random.randint(lo, hi)`: `None` and `0`
are both falsy, so either one selects the random draw. -/
def resolveCount (numClaims : Option Nat) (draw : Nat) : Nat :=
  match numClaims with
  | none => draw
  | some n => if n = 0 then draw else n

/-- Elements of an HI diagnosis segment: `BK:` qualifier on the first code,
`BF:` on the rest (source lines 918-921 and 1336-1339). -/
def hiElements (diagHead : String × String) (diagTail : List (String × String)) :
    List String :=
  ("BK:" ++ diagHead.1) :: diagTail.map (fun d => "BF:" ++ d.1)

/-- Per-claim draws of `generate_837p` (one loop iteration of source lines 866-931). -/
structure Claim837Rand where
  patient : Patient
  patientMemberId : String
  patientAddr : Address
  posCode : String
  posName : String
  claimCtrl : String
  diagHead : String × String
  diagTail : List (String × String)
  serviceDate : String
  wcClaim : String
  procHead : Proc
  procTail : List Proc
deriving DecidableEq

/-- The procedures sampled for one 837P claim; `random.sample` draws at least
one because `num_svc_lines = min(randint(1, 4), len(pool)) ≥ 1`. -/
def procs837 (c : Claim837Rand) : List Proc :=
  c.procHead :: c.procTail

/-- One LX/SV1/DTP service-line block of the 837P (source lines 924-931),
`svc_idx` counted from 1 and `qty = 1`. -/
def svcLine837 (posCode serviceDate : String) (svcIdx : Nat) (p : Proc) : List Seg :=
  [Seg.mk "LX" [Nat.repr svcIdx],
   Seg.mk "SV1" ["HC:" ++ p.cpt, fmt2 p.price, "UN", Nat.repr 1, posCode, "", Nat.repr svcIdx],
   Seg.mk "DTP" ["472", "D8", serviceDate]]

/-- The segments of one 837P claim loop iteration; `hl` is the subscriber HL id. -/
def claim837Segs (hl : Nat) (payerName payerId : String) (c : Claim837Rand) : List Seg :=
  let totalCharge : ℚ := (procs837 c).foldl (fun acc p => acc + p.price) 0
  [Seg.mk "HL" [Nat.repr hl, "1", "22", "0"],
   Seg.mk "SBR" ["P", "", "", "", "", "", "", "", "", "WC"],
   Seg.mk "NM1" ["IL", "1", c.patient.last, c.patient.first, c.patient.mi,
                 "", "", "MI", c.patientMemberId],
   Seg.mk "N3" [c.patientAddr.street],
   Seg.mk "N4" [c.patientAddr.city, c.patientAddr.state, c.patientAddr.zip],
   Seg.mk "DMG" ["D8", c.patient.dob, c.patient.gender],
   Seg.mk "NM1" ["PR", "2", payerName, "", "", "", "", "PI", payerId],
   Seg.mk "CLM" [c.claimCtrl, fmt2 totalCharge, "", "", c.posCode ++ ":B:1",
                 "Y", "A", "Y", "I"],
   Seg.mk "DTP" ["431", "D8", c.serviceDate],
   Seg.mk "REF" ["D9", c.claimCtrl],
   Seg.mk "REF" ["Y4", c.wcClaim],
   Seg.mk "HI" (hiElements c.diagHead c.diagTail)]
  ++ (List.enumFrom 1 (procs837 c)).flatMap
       (fun ip => svcLine837 c.posCode c.serviceDate ip.1 ip.2)

/-- The 837P claims loop: `hl` is the running `hl_id` before the iteration,
`j` the iteration index feeding the draw stream, the last argument the
remaining iteration count. -/
def claims837Loop (f : Nat → Claim837Rand) (payerName payerId : String) :
    Nat → Nat → Nat → List Seg
  | _, _, 0 => []
  | hl, j, Nat.succ k =>
    claim837Segs (hl + 1) payerName payerId (f j)
      ++ claims837Loop f payerName payerId (hl + 1) (j + 1) k

/-- The draws of `generate_837p` outside the claims loop, in source order. -/
structure Rand837p where
  countDraw : Nat
  submitterName : String
  payerName : String
  payerId : String
  mcoName : String
  mcoCode : String
  mcoNpi : String
  bhtRef : String
  todayDate : String
  nowTime : String
  submitterEdiId : String
  perPhone : Nat
  billingProvider : Provider
  billingNpi : String
  billingTin : String
  billingAddr : Address
  claims : Nat → Claim837Rand

/-- The fixed 837P segments before the claims loop (source lines 834-864).
The `mco` draw is made by the source but never used, mirrored by the unused
`mco*` fields of `Rand837p`. -/
def header837 (r : Rand837p) : List Seg :=
  [Seg.mk "BHT" ["0019", "00", r.bhtRef, r.todayDate, r.nowTime, "CH"],
   Seg.mk "NM1" ["41", "2", r.submitterName, "", "", "", "", "46", r.submitterEdiId],
     Seg.mk "PER" ["IC", "EDI DEPARTMENT", "TE", "555" ++ Nat.repr r.perPhone],
     Seg.mk "NM1" ["40", "2", r.payerName, "", "", "", "", "46", r.payerId],
     Seg.mk "HL" [Nat.repr 1, "", "20", "1"],
     Seg.mk "PRV" ["BI", "PXC", "207X00000X"],
     Seg.mk "NM1" ["85", "1", r.billingProvider.last, r.billingProvider.first,
                   r.billingProvider.cred, "", "", "XX", r.billingNpi],
     Seg.mk "N3" [r.billingAddr.street],
     Seg.mk "N4" [r.billingAddr.city, r.billingAddr.state, r.billingAddr.zip],
   Seg.mk "REF" ["EI", r.billingTin]]

/-- Source `generate_837p`: body segments, sender id, receiver id. -/
def generate_837p (numClaims : Option Nat) (r : Rand837p) :
    List Seg × String × String :=
  let count := resolveCount numClaims r.countDraw
  let body := header837 r ++ claims837Loop r.claims r.payerName r.payerId 1 0 count
  (body, idFromName r.submitterName, idFromName r.payerName)

/-- Per-claim draws of `generate_835` (one loop iteration of source lines 984-1026). -/
structure Claim835Rand where
  patient : Patient
  clmCtrl : String
  procHead : Proc
  procTail : List Proc
  serviceDate : String
  uDraw : ℚ
  payerClaimNum : String
  memberId : String
  dtm233Date : String
deriving DecidableEq

/-- The procedures sampled for one 835 claim; at least one because
`num_lines = min(randint(1, 3), len(pool)) ≥ 1`. -/
def procs835 (c : Claim835Rand) : List Proc :=
  c.procHead :: c.procTail

/-- Source `total_charged = sum(p[2] for p in procedures)`. -/
def totalCharged835 (c : Claim835Rand) : ℚ :=
  (procs835 c).foldl (fun acc p => acc + p.price) 0

/-- Source `allowed = round(total_charged * random.uniform(0.65, 0.90), 2)`;
the uniform draw is the field `uDraw`. -/
def allowed835 (c : Claim835Rand) : ℚ :=
  round2 (totalCharged835 c * c.uDraw)

/-- Source `claim_payment = allowed`. -/
def claim835Payment (c : Claim835Rand) : ℚ :=
  allowed835 c

/-- Source `adjustment = round(total_charged - allowed, 2)`. -/
def adjustment835 (c : Claim835Rand) : ℚ :=
  round2 (totalCharged835 c - allowed835 c)

/-- One SVC service-line block of the 835 (source lines 1018-1026). -/
def svc835Segs (c : Claim835Rand) (p : Proc) : List Seg :=
  let paid := round2 (p.price * (claim835Payment c / totalCharged835 c))
  let lineAdj := round2 (p.price - paid)
  [Seg.mk "SVC" ["HC:" ++ p.cpt, fmt2 p.price, fmt2 paid, "", "1"],
   Seg.mk "DTM" ["472", c.serviceDate]]
  ++ (if lineAdj > 0 then [Seg.mk "CAS" ["CO", "45", fmt2 lineAdj]] else [])
  ++ [Seg.mk "AMT" ["B6", fmt2 paid]]

/-- The segments of one 835 claim loop iteration. -/
def claim835Segs (c : Claim835Rand) : List Seg :=
  [Seg.mk "CLP" [c.clmCtrl, "1", fmt2 (totalCharged835 c), fmt2 (claim835Payment c),
                 "", "WC", c.payerClaimNum, "11"],
   Seg.mk "CAS" ["CO", "45", fmt2 (adjustment835 c)],
   Seg.mk "NM1" ["QC", "1", c.patient.last, c.patient.first, c.patient.mi,
                 "", "", "MI", c.memberId],
   Seg.mk "DTM" ["232", c.serviceDate],
   Seg.mk "DTM" ["233", c.dtm233Date]]
  ++ (procs835 c).flatMap (svc835Segs c)

/-- The draws of `generate_835` outside the claims loop, in source order. -/
structure Rand835 where
  countDraw : Nat
  payerName : String
  payerId : String
  payerAddr : Address
  checkNum : String
  payDate : String
  perPhone : Nat
  payeeFacility : String
  payeeNpi : String
  payeeAddr : Address
  payeeTaxId : String
  claims : Nat → Claim835Rand
  plbDraw : ℚ

/-- Source `plb_adj = round(random.uniform(-5.0, 0), 2)`. -/
def plbAdj835 (r : Rand835) : ℚ :=
  round2 r.plbDraw

/-- Source `total_payment` accumulated over the claims loop, before the PLB. -/
def totalClaims835 (r : Rand835) (count : Nat) : ℚ :=
  (List.range count).foldl (fun acc j => acc + claim835Payment (r.claims j)) 0

/-- The eleven fixed 835 segments between the BPR placeholder and the claims
loop (source lines 960-981). -/
def pre835Segs (r : Rand835) : List Seg :=
  [Seg.mk "TRN" ["1", r.checkNum, "1" ++ r.payerId],
   Seg.mk "DTM" ["405", r.payDate],
   Seg.mk "N1" ["PR", r.payerName],
   Seg.mk "N3" [r.payerAddr.street],
   Seg.mk "N4" [r.payerAddr.city, r.payerAddr.state, r.payerAddr.zip],
   Seg.mk "REF" ["2U", r.payerId],
   Seg.mk "PER" ["BL", "CLAIMS DEPT", "TE", "800" ++ Nat.repr r.perPhone],
   Seg.mk "N1" ["PE", r.payeeFacility, "XX", r.payeeNpi],
   Seg.mk "N3" [r.payeeAddr.street],
   Seg.mk "N4" [r.payeeAddr.city, r.payeeAddr.state, r.payeeAddr.zip],
   Seg.mk "REF" ["TJ", r.payeeTaxId]]

/-- Source `generate_835`: the body as built, with the slot reserved at index 0
(the Python `None` placeholder, modelled by `Option`) overwritten with the BPR
segment once the total is known. -/
def generate_835 (numClaims : Option Nat) (r : Rand835) :
    List (Option Seg) × String × String :=
  let count := resolveCount numClaims r.countDraw
  let pre : List (Option Seg) := none :: (pre835Segs r).map some
  let claimSegs : List (Option Seg) :=
    ((List.range count).flatMap (fun j => claim835Segs (r.claims j))).map some
  let plb := plbAdj835 r
  let segs :=
    if plb ≠ 0 then
      pre ++ claimSegs
        ++ [some (Seg.mk "PLB" [r.payeeNpi, r.payDate, "CV:CP", fmt2 plb])]
    else pre ++ claimSegs
  let total_payment := if plb ≠ 0 then totalClaims835 r count + plb else totalClaims835 r count
  let bpr := Seg.mk "BPR" ["C", fmt2 total_payment, "C", "ACH", "CTX",
                           "01", "999999992", "DA", "123456",
                           "1" ++ r.payerId, "", "01", "999988880", "DA",
                           r.checkNum, r.payDate]
  (segs.set 0 (some bpr), idFromName r.payerName, idFromName r.payeeFacility)

/-- Per-subscriber draws of `generate_270` (one loop iteration, source lines 1098-1114). -/
structure Sub270Rand where
  patient : Patient
  traceNum : String
  memberId : String
  svcDate : String
  eqCodes : List String
deriving DecidableEq

/-- The segments of one 270 subscriber loop iteration; `hl` is the HL id,
the parent is the fixed `provider_hl = 2`. -/
def sub270Segs (hl : Nat) (payerId : String) (s : Sub270Rand) : List Seg :=
  [Seg.mk "HL" [Nat.repr hl, Nat.repr 2, "22", "0"],
   Seg.mk "TRN" ["1", s.traceNum, "9" ++ payerId],
   Seg.mk "NM1" ["IL", "1", s.patient.last, s.patient.first, s.patient.mi,
                 "", "", "MI", s.memberId],
   Seg.mk "DMG" ["D8", s.patient.dob],
   Seg.mk "DTP" ["291", "D8", s.svcDate]]
  ++ s.eqCodes.map (fun code => Seg.mk "EQ" [code])

/-- The 270 subscribers loop, threading the running `hl_id`. -/
def subs270Loop (f : Nat → Sub270Rand) (payerId : String) :
    Nat → Nat → Nat → List Seg
  | _, _, 0 => []
  | hl, j, Nat.succ k =>
    sub270Segs (hl + 1) payerId (f j) ++ subs270Loop f payerId (hl + 1) (j + 1) k

/-- The draws of `generate_270` outside the subscriber loop. -/
structure Rand270 where
  countDraw : Nat
  payerName : String
  payerId : String
  facility : String
  providerNpi : String
  bhtRef : String
  todayDate : String
  nowTime : String
  provTaxId : String
  subs : Nat → Sub270Rand

/-- The fixed 270 segments before the subscriber loop (source lines 1062-1077). -/
def header270 (r : Rand270) : List Seg :=
  [Seg.mk "BHT" ["0022", "13", r.bhtRef, r.todayDate, r.nowTime],
   Seg.mk "HL" [Nat.repr 1, "", "20", "1"],
   Seg.mk "NM1" ["PR", "2", r.payerName, "", "", "", "", "PI", r.payerId],
   Seg.mk "HL" [Nat.repr 2, Nat.repr 1, "21", "1"],
   Seg.mk "NM1" ["1P", "2", r.facility, "", "", "", "", "XX", r.providerNpi],
   Seg.mk "REF" ["EI", r.provTaxId]]

/-- Source `generate_270`. -/
def generate_270 (numClaims : Option Nat) (r : Rand270) :
    List Seg × String × String :=
  let count := resolveCount numClaims r.countDraw
  (header270 r ++ subs270Loop r.subs r.payerId 2 0 count,
   idFromName r.facility, idFromName r.payerName)

/-- One entry of the 271 `benefit_details` sample plus the per-benefit draws
(`copay`, and `max_visits` for the therapy service types). -/
structure Benefit271 where
  svcCode : String
  svcDesc : String
  infoType : String
  amtQual : String
  copay : Nat
  maxVisits : Nat
deriving DecidableEq

/-- The EB segments one selected benefit contributes (source lines 1220-1235). -/
def benefit271Segs (planName : String) (b : Benefit271) : List Seg :=
  (if b.infoType = "B" then
     [Seg.mk "EB" ["B", "IND", b.svcCode, "HM", planName, b.amtQual,
                   Nat.repr b.copay, "", "", "", "", "Y"]]
   else if b.infoType = "F" then
     [Seg.mk "EB" ["F", "IND", b.svcCode, "HM", planName]]
   else [])
  ++ (if b.svcCode = "PT" ∨ b.svcCode = "OT" ∨ b.svcCode = "33" then
       [Seg.mk "EB" ["F", "IND", b.svcCode, "HM", planName, "27", "", "",
                     Nat.repr b.maxVisits, "23"]]
     else [])

/-- Per-subscriber draws of `generate_271` (one loop iteration, source lines 1180-1251). -/
structure Sub271Rand where
  patient : Patient
  patientAddr : Address
  memberId : String
  planName : String
  traceNum : String
  effDate : String
  isActive : Bool
  benefits : List Benefit271
  oopMax : Nat
  deductible : Nat
  termDate : String
deriving DecidableEq

/-- The segments of one 271 subscriber loop iteration. -/
def sub271Segs (hl : Nat) (payerId : String) (s : Sub271Rand) : List Seg :=
  [Seg.mk "HL" [Nat.repr hl, Nat.repr 2, "22", "0"],
   Seg.mk "TRN" ["2", s.traceNum, "9" ++ payerId],
   Seg.mk "NM1" ["IL", "1", s.patient.last, s.patient.first, s.patient.mi,
                 "", "", "MI", s.memberId],
   Seg.mk "N3" [s.patientAddr.street],
   Seg.mk "N4" [s.patientAddr.city, s.patientAddr.state, s.patientAddr.zip],
   Seg.mk "DMG" ["D8", s.patient.dob, s.patient.gender],
   Seg.mk "INS" ["Y", "18", "", "", "A"],
   Seg.mk "DTP" ["346", "D8", s.effDate]]
  ++ (if s.isActive then
       [Seg.mk "EB" ["1", "", "30", "", s.planName],
        Seg.mk "EB" ["1", "", String.intercalate "^" (s.benefits.map (fun b => b.svcCode))]]
       ++ s.benefits.flatMap (benefit271Segs s.planName)
       ++ [Seg.mk "EB" ["G", "IND", "30", "HM", s.planName, "29", Nat.repr s.oopMax]]
       ++ (if s.deductible > 0 then
            [Seg.mk "EB" ["C", "IND", "30", "HM", s.planName, "29", Nat.repr s.deductible]]
          else [])
     else
       [Seg.mk "EB" ["6", "", "30", "", s.planName],
        Seg.mk "DTP" ["347", "D8", s.termDate]])

/-- The 271 subscribers loop, threading the running `hl_id`. -/
def subs271Loop (f : Nat → Sub271Rand) (payerId : String) :
    Nat → Nat → Nat → List Seg
  | _, _, 0 => []
  | hl, j, Nat.succ k =>
    sub271Segs (hl + 1) payerId (f j) ++ subs271Loop f payerId (hl + 1) (j + 1) k

/-- The draws of `generate_271` outside the subscriber loop. -/
structure Rand271 where
  countDraw : Nat
  payerName : String
  payerId : String
  facility : String
  providerNpi : String
  bhtRef : String
  todayDate : String
  nowTime : String
  subs : Nat → Sub271Rand

/-- The fixed 271 segments before the subscriber loop (source lines 1164-1178). -/
def header271 (r : Rand271) : List Seg :=
  [Seg.mk "BHT" ["0022", "11", r.bhtRef, r.todayDate, r.nowTime],
   Seg.mk "HL" [Nat.repr 1, "", "20", "1"],
   Seg.mk "NM1" ["PR", "2", r.payerName, "", "", "", "", "PI", r.payerId],
   Seg.mk "HL" [Nat.repr 2, Nat.repr 1, "21", "1"],
   Seg.mk "NM1" ["1P", "2", r.facility, "", "", "", "", "XX", r.providerNpi]]

/-- Source `generate_271`. -/
def generate_271 (numClaims : Option Nat) (r : Rand271) :
    List Seg × String × String :=
  let count := resolveCount numClaims r.countDraw
  (header271 r ++ subs271Loop r.subs r.payerId 2 0 count,
   idFromName r.payerName, idFromName r.facility)

/-- Per-request draws of `generate_278` (one loop iteration, source lines 1289-1363).
The `svcType*` fields mirror the `random.choice(active_auth_service_types)` draw,
which the source makes but never uses afterwards. -/
structure Req278Rand where
  patient : Patient
  provider : Provider
  providerNpi : String
  addr : Address
  svcTypeCode : String
  svcTypeName : String
  svcTypeQty : String
  taxId : String
  perPhone : Nat
  memberId : String
  patientAddr : Address
  reviewType : String
  certType : String
  posCode : String
  diagHead : String × String
  diagTail : List (String × String)
  numVisits : Nat
  reqStart : String
  reqEnd : String
  daysBetween : Nat
  prevAuthDigits : String
  procsQty : List (Proc × Nat)
deriving DecidableEq

/-- The segments of one 278 request loop iteration; `hl` is the running
`hl_id` before the iteration, which emits HL ids `hl+1`, `hl+2`, `hl+3`. -/
def req278Segs (hl : Nat) (payerName payerId : String) (q : Req278Rand) : List Seg :=
  [Seg.mk "HL" [Nat.repr (hl + 1), Nat.repr 1, "21", "1"],
   Seg.mk "NM1" ["1P", "1", q.provider.last, q.provider.first, q.provider.cred,
                 "", "", "XX", q.providerNpi],
   Seg.mk "REF" ["EI", q.taxId],
   Seg.mk "N3" [q.addr.street],
   Seg.mk "N4" [q.addr.city, q.addr.state, q.addr.zip],
   Seg.mk "PER" ["IC", q.provider.first ++ " " ++ q.provider.last, "TE",
                 "555" ++ Nat.repr q.perPhone],
   Seg.mk "HL" [Nat.repr (hl + 2), Nat.repr (hl + 1), "22", "1"],
   Seg.mk "NM1" ["IL", "1", q.patient.last, q.patient.first, q.patient.mi,
                 "", "", "MI", q.memberId],
   Seg.mk "N3" [q.patientAddr.street],
   Seg.mk "N4" [q.patientAddr.city, q.patientAddr.state, q.patientAddr.zip],
   Seg.mk "DMG" ["D8", q.patient.dob, q.patient.gender],
   Seg.mk "NM1" ["PR", "2", payerName, "", "", "", "", "PI", payerId],
   Seg.mk "HL" [Nat.repr (hl + 3), Nat.repr (hl + 2), "EV", "0"],
   Seg.mk "UM" [q.reviewType, q.certType, "", q.posCode],
   Seg.mk "HI" (hiElements q.diagHead q.diagTail),
   Seg.mk "HSD" ["VS", Nat.repr q.numVisits, "DA", Nat.repr q.daysBetween, "7"],
   Seg.mk "DTP" ["472", "RD8", q.reqStart ++ "-" ++ q.reqEnd]]
  ++ (if q.certType = "R" ∨ q.certType = "E" then
       [Seg.mk "REF" ["BB", "AUTH" ++ q.prevAuthDigits]]
     else [])
  ++ q.procsQty.map (fun pq =>
       Seg.mk "SV1" ["HC:" ++ pq.1.cpt, fmt2 pq.1.price, "UN", Nat.repr pq.2])

/-- The 278 requests loop, threading the running `hl_id` (three HLs per iteration). -/
def reqs278Loop (f : Nat → Req278Rand) (payerName payerId : String) :
    Nat → Nat → Nat → List Seg
  | _, _, 0 => []
  | hl, j, Nat.succ k =>
    req278Segs hl payerName payerId (f j)
      ++ reqs278Loop f payerName payerId (hl + 3) (j + 1) k

/-- The draws of `generate_278` outside the request loop. -/
structure Rand278 where
  countDraw : Nat
  payerName : String
  payerId : String
  mcoName : String
  mcoCode : String
  mcoNpi : String
  facility : String
  bhtRef : String
  todayDate : String
  nowTime : String
  reqs : Nat → Req278Rand

/-- The fixed 278 segments before the request loop (source lines 1278-1287). -/
def header278 (r : Rand278) : List Seg :=
  [Seg.mk "BHT" ["0007", "13", r.bhtRef, r.todayDate, r.nowTime],
   Seg.mk "HL" [Nat.repr 1, "", "20", "1"],
   Seg.mk "NM1" ["X3", "2", r.mcoName, "", "", "", "", "46", r.mcoCode]]

/-- Source `generate_278`. -/
def generate_278 (numClaims : Option Nat) (r : Rand278) :
    List Seg × String × String :=
  let count := resolveCount numClaims r.countDraw
  (header278 r ++ reqs278Loop r.reqs r.payerName r.payerId 1 0 count,
   idFromName r.facility, idFromName r.mcoName)

/-- The acknowledged transaction type of `generate_999`:
`random.choice(["837", "835", "270", "278"])`. -/
inductive AckTxn where
  | t837
  | t835
  | t270
  | t278
deriving DecidableEq

/-- The chosen string itself. -/
def AckTxn.code : AckTxn → String
  | .t837 => "837"
  | .t835 => "835"
  | .t270 => "270"
  | .t278 => "278"

/-- Source dict `{"837": "HC", "835": "HP", "270": "HS", "278": "HI"}`. -/
def AckTxn.funcCode : AckTxn → String
  | .t837 => "HC"
  | .t835 => "HP"
  | .t270 => "HS"
  | .t278 => "HI"

/-- Source `version_map`. -/
def AckTxn.gsVersion : AckTxn → String
  | .t837 => "005010X222A1"
  | .t835 => "005010X221A1"
  | .t270 => "005010X279A1"
  | .t278 => "005010X217"

/-- One IK3/IK4 error-note draw of `generate_999`. -/
structure Err999 where
  segPos : Nat
  segId : String
  errCode : String × String
  elemPos : Nat
  elemCode : String × String
deriving DecidableEq

/-- The IK3/IK4 pair one error note contributes (source lines 1436-1440). -/
def err999Segs (e : Err999) : List Seg :=
  [Seg.mk "IK3" [e.segId, Nat.repr e.segPos, "", e.errCode.1],
   Seg.mk "IK4" [Nat.repr e.elemPos, "", "", e.elemCode.1]]

/-- The `random.random()` roll of one 999 iteration: accepted (roll < 0.70),
accepted with errors (roll < 0.85, with 1-2 error notes), or rejected
(with 2-4 error notes). -/
inductive Outcome999 where
  | acc
  | accErr (errs : List Err999)
  | rej (errs : List Err999)
deriving DecidableEq

/-- The IK5 status the outcome produces. -/
def Outcome999.status : Outcome999 → String
  | .acc => "A"
  | .accErr _ => "E"
  | .rej _ => "R"

/-- The error notes the outcome produces. -/
def Outcome999.errs : Outcome999 → List Err999
  | .acc => []
  | .accErr es => es
  | .rej es => es

/-- Whether the iteration increments the `accepted` counter (statuses A and E). -/
def Outcome999.isAccepted : Outcome999 → Bool
  | .acc => true
  | .accErr _ => true
  | .rej _ => false

/-- Per-transaction draws of `generate_999`. -/
structure Txn999Rand where
  stR : Nat
  outcome : Outcome999
deriving DecidableEq

/-- The segments of one 999 loop iteration: AK2, the error notes, IK5. -/
def txn999Segs (ack : AckTxn) (t : Txn999Rand) : List Seg :=
  Seg.mk "AK2" [ack.code, zfill (control_number 4 t.stR) 4, ack.gsVersion]
    :: t.outcome.errs.flatMap err999Segs
    ++ [Seg.mk "IK5" [t.outcome.status]]

/-- The draws of `generate_999` outside the loop. -/
structure Rand999 where
  countDraw : Nat
  senderName : String
  senderPayerId : String
  receiverFacility : String
  origGsR : Nat
  ackTxn : AckTxn
  txns : Nat → Txn999Rand

/-- Source accepted counter over the first `count` iterations. -/
def accepted999 (r : Rand999) (count : Nat) : Nat :=
  ((List.range count).filter (fun j => (r.txns j).outcome.isAccepted)).length

/-- Source rejected counter over the first `count` iterations. -/
def rejected999 (r : Rand999) (count : Nat) : Nat :=
  ((List.range count).filter (fun j => !(r.txns j).outcome.isAccepted)).length

/-- Source `generate_999`. -/
def generate_999 (numClaims : Option Nat) (r : Rand999) :
    List Seg × String × String :=
  let count := resolveCount numClaims r.countDraw
  let accepted := accepted999 r count
  let rejected := rejected999 r count
  let total := accepted + rejected
  let group_status := if rejected = 0 then "A" else if accepted > 0 then "P" else "R"
  (Seg.mk "AK1" [r.ackTxn.funcCode, control_number 4 r.origGsR, r.ackTxn.gsVersion]
     :: (List.range count).flatMap (fun j => txn999Segs r.ackTxn (r.txns j))
     ++ [Seg.mk "AK9" [group_status, Nat.repr total, Nat.repr total, Nat.repr accepted]],
   idFromName r.senderName, idFromName r.receiverFacility)

/-- The keys of the source `GENERATORS` dict, in insertion order. -/
def GENERATOR_KEYS : List String :=
  ["837P", "835", "270", "271", "278", "999"]

/-- The human descriptions of the source `GENERATORS` dict. -/
def GENERATOR_DESC : String → String
  | "837P" => "Health Care Claim - Professional"
  | "835" => "Health Care Claim Payment/Remittance Advice"
  | "270" => "Eligibility Inquiry"
  | "271" => "Eligibility Response"
  | "278" => "Health Care Services Review (Auth Request)"
  | "999" => "Implementation Acknowledgment"
  | _ => ""

/-- All the draws one `generate_edi` call can consume. -/
structure GenRand where
  env : EnvRand
  r837p : Rand837p
  r835 : Rand835
  r270 : Rand270
  r271 : Rand271
  r278 : Rand278
  r999 : Rand999

/-- The `GENERATORS` dispatch.  For the 835 the `Option` wrapper that models
the placeholder slot is stripped; by then the placeholder has been overwritten,
so nothing is dropped.  The catch-all is unreachable from `generate_edi`,
which checks membership first. -/
def dispatch (txnType : String) (numClaims : Option Nat) (g : GenRand) :
    List Seg × String × String :=
  match txnType with
  | "837P" => generate_837p numClaims g.r837p
  | "835" =>
    let x := generate_835 numClaims g.r835
    (x.1.filterMap id, x.2.1, x.2.2)
  | "270" => generate_270 numClaims g.r270
  | "271" => generate_271 numClaims g.r271
  | "278" => generate_278 numClaims g.r278
  | "999" => generate_999 numClaims g.r999
  | _ => ([], "", "")

/-- Source `generate_edi`: reject an unknown transaction type with a
`ValueError` listing the valid keys before any segment is produced, else
generate the body and wrap it in a fresh `EDIBuilder`. -/
def generate_edi (txnType : String) (numClaims : Option Nat) (pretty : Bool)
    (g : GenRand) : Except String (String × String) :=
  if txnType ∉ GENERATOR_KEYS then
    Except.error ("Unsupported transaction type: " ++ txnType ++ ". Supported: "
      ++ String.intercalate ", " GENERATOR_KEYS)
  else
    let x := dispatch txnType numClaims g
    match build_envelope {} x.2.1 x.2.2 txnType x.1 g.env with
    | some b => Except.ok (b.render pretty, GENERATOR_DESC txnType)
    | none => Except.error "KeyError"
/-- The rendered envelope segment strings `build_envelope` appends around a body. -/
def envSegStrings (b : EDIBuilder) (snd rcv fc si gv : String) (body : List Seg)
    (r : EnvRand) : List String :=
  [encodeSeg b.element_sep b.segment_term "ISA"
     (isaElements b.sub_element_sep snd rcv r.dateYYMMDD r.timeHHMM
       (control_number 9 r.isaR)),
   encodeSeg b.element_sep b.segment_term "GS"
     (gsElements fc snd rcv r.dateYYYYMMDD r.timeHHMM (control_number 4 r.gsR) gv),
   encodeSeg b.element_sep b.segment_term "ST"
     (stElements si (zfill (control_number 4 r.stR) 4) gv)]
  ++ body.map (fun sg => encodeSeg b.element_sep b.segment_term sg.sid sg.els)
  ++ [encodeSeg b.element_sep b.segment_term "SE"
        (seElements (body.length + 2) (zfill (control_number 4 r.stR) 4)),
      encodeSeg b.element_sep b.segment_term "GE"
        (geElements (control_number 4 r.gsR)),
      encodeSeg b.element_sep b.segment_term "IEA"
        (ieaElements (control_number 9 r.isaR))]

/-- Folding the body through `EDIBuilder.add` appends the encoded segments and
leaves the delimiters untouched. -/
theorem foldl_add_segments (body : List Seg) (b : EDIBuilder) :
    body.foldl (fun bb sg => bb.add sg.sid sg.els) b =
      { b with segments := b.segments
          ++ body.map (fun sg => encodeSeg b.element_sep b.segment_term sg.sid sg.els) } := by
  induction body generalizing b with
  | nil => simp
  | cons a l ih =>
    rw [List.foldl_cons, ih]
    simp [EDIBuilder.add, List.append_assoc]

/-- Full computation of `build_envelope` once the `TXN_META` lookup succeeds. -/
theorem build_envelope_eq (b : EDIBuilder) (snd rcv t : String) (body : List Seg)
    (r : EnvRand) (fc si gv : String) (hm : TXN_META t = some (fc, si, gv)) :
    build_envelope b snd rcv t body r =
      some { b with segments := b.segments ++ envSegStrings b snd rcv fc si gv body r } := by
  simp only [build_envelope, hm]
  rw [foldl_add_segments]
  simp [EDIBuilder.add, envSegStrings, List.append_assoc]
/-- Two strings with the same character data are equal. -/
theorem str_ext {a b : String} (h : a.data = b.data) : a = b :=
  congrArg String.mk h

/-- Data-level computation of `pad`. -/
theorem pad_data (s : String) (n : Nat) (fill : Char) :
    (pad s n fill).data =
      s.data.take n ++ List.replicate (n - (s.data.take n).length) fill := by
  unfold pad ljust
  rw [String.take_eq, String.data_append]
  rfl

/-- The padded identifier always has exactly the requested width. -/
theorem pad_length (s : String) (n : Nat) (fill : Char) : (pad s n fill).length = n := by
  have h := pad_data s n fill
  simp only [String.length, h, List.length_append, List.length_take, List.length_replicate]
  omega

/-- A value at least as long as the width is truncated to the width. -/
theorem pad_eq_take (s : String) (n : Nat) (fill : Char) (h : n ≤ s.length) :
    pad s n fill = s.take n := by
  apply str_ext
  rw [pad_data, String.take_eq]
  have hds : s.length = s.data.length := rfl
  have hlen : (s.data.take n).length = n := by
    simp only [List.length_take]
    omega
  rw [hlen, Nat.sub_self]
  simp

/-- A value shorter than the width is padded on the right with the fill. -/
theorem pad_eq_append (s : String) (n : Nat) (fill : Char) (h : s.length ≤ n) :
    pad s n fill = s ++ String.mk (List.replicate (n - s.length) fill) := by
  apply str_ext
  rw [pad_data]
  have ht : s.data.take n = s.data := List.take_of_length_le h
  rw [ht, String.data_append]
  rfl
/-- The document produced on a fresh default builder (used by `generate_edi`),
in head-normal list form. -/
def envDoc (snd rcv fc si gv : String) (body : List Seg) (r : EnvRand) : List String :=
  encodeSeg "*" "~" "ISA"
      (isaElements ":" snd rcv r.dateYYMMDD r.timeHHMM (control_number 9 r.isaR))
    :: encodeSeg "*" "~" "GS"
        (gsElements fc snd rcv r.dateYYYYMMDD r.timeHHMM (control_number 4 r.gsR) gv)
    :: encodeSeg "*" "~" "ST" (stElements si (zfill (control_number 4 r.stR) 4) gv)
    :: (body.map (fun sg => encodeSeg "*" "~" sg.sid sg.els)
        ++ [encodeSeg "*" "~" "SE"
              (seElements (body.length + 2) (zfill (control_number 4 r.stR) 4)),
            encodeSeg "*" "~" "GE" (geElements (control_number 4 r.gsR)),
            encodeSeg "*" "~" "IEA" (ieaElements (control_number 9 r.isaR))])

/-- `build_envelope` on a fresh default builder produces exactly `envDoc`. -/
theorem build_envelope_default (snd rcv t : String) (body : List Seg) (r : EnvRand)
    (fc si gv : String) (hm : TXN_META t = some (fc, si, gv)) :
    build_envelope {} snd rcv t body r =
      some ⟨"*", "~", ":", envDoc snd rcv fc si gv body r⟩ := by
  rw [build_envelope_eq {} snd rcv t body r fc si gv hm]
  simp [envSegStrings, envDoc]

/-- Indexing just past a cons-triple and a list of known length. -/
theorem getElem?_triple_append {α : Type} (x y z : α) (l₁ l₂ : List α) (n : Nat)
    (h : l₁.length = n) : (x :: y :: z :: (l₁ ++ l₂))[n + 3]? = l₂[0]? := by
  subst h
  rw [show l₁.length + 3 = l₁.length + 2 + 1 from rfl, List.getElem?_cons_succ,
      show l₁.length + 2 = l₁.length + 1 + 1 from rfl, List.getElem?_cons_succ,
      List.getElem?_cons_succ, List.getElem?_append_right (Nat.le_refl _), Nat.sub_self]

/-- Taking a cons plus a list of known length plus one more element. -/
theorem take_span_append {α : Type} (z : α) (l₁ l₂ : List α) (n : Nat)
    (h : l₁.length = n) : (z :: (l₁ ++ l₂)).take (n + 2) = z :: (l₁ ++ l₂.take 1) := by
  subst h
  rw [show l₁.length + 2 = l₁.length + 1 + 1 from rfl, List.take_succ_cons,
      List.take_append]

/-- C1: for every transaction type key and every body segment list, the SE
segment emitted by `build_envelope` carries a count element equal to
`str(len(body) + 2)`, and the span of segments from ST (index 2) through SE
(index `len(body) + 3`) inclusive in the resulting document has exactly
`len(body) + 2` segments. -/
theorem se_count_invariant (snd rcv t : String) (body : List Seg) (r : EnvRand)
    (fc si gv : String) (hm : TXN_META t = some (fc, si, gv)) :
    ∃ b, build_envelope {} snd rcv t body r = some b ∧
      b.segments[2]? = some (encodeSeg "*" "~" "ST"
        (stElements si (zfill (control_number 4 r.stR) 4) gv)) ∧
      b.segments[body.length + 3]? = some (encodeSeg "*" "~" "SE"
        (seElements (body.length + 2) (zfill (control_number 4 r.stR) 4))) ∧
      (seElements (body.length + 2) (zfill (control_number 4 r.stR) 4))[0]? =
        some (Nat.repr (body.length + 2)) ∧
      (b.segments.drop 2).take (body.length + 2) =
        encodeSeg "*" "~" "ST" (stElements si (zfill (control_number 4 r.stR) 4) gv)
          :: (body.map (fun sg => encodeSeg "*" "~" sg.sid sg.els)
              ++ [encodeSeg "*" "~" "SE"
                    (seElements (body.length + 2) (zfill (control_number 4 r.stR) 4))]) ∧
      ((b.segments.drop 2).take (body.length + 2)).length = body.length + 2 := by
  refine ⟨_, build_envelope_default snd rcv t body r fc si gv hm, ?_, ?_, rfl, ?_, ?_⟩
  · show (envDoc snd rcv fc si gv body r)[2]? = _
    simp [envDoc]
  · show (envDoc snd rcv fc si gv body r)[body.length + 3]? = _
    rw [envDoc, getElem?_triple_append _ _ _ _ _ _ (by simp)]
    rfl
  · show ((envDoc snd rcv fc si gv body r).drop 2).take (body.length + 2) = _
    rw [envDoc]
    simp only [List.drop_succ_cons, List.drop_zero]
    rw [take_span_append _ _ _ _ (by simp)]
    rfl
  · show (((envDoc snd rcv fc si gv body r).drop 2).take (body.length + 2)).length = _
    rw [envDoc]
    simp only [List.drop_succ_cons, List.drop_zero]
    rw [take_span_append _ _ _ _ (by simp)]
    simp
/-- C2: in every envelope built by `build_envelope`, the ISA control number
element equals the IEA control number element, the GS control element equals
the GE control element, the ST control element equals the SE control element,
and both the GE and the IEA count elements are the fixed string "1". -/
theorem envelope_control_numbers (b0 : EDIBuilder) (snd rcv t : String)
    (body : List Seg) (r : EnvRand) (fc si gv : String)
    (hm : TXN_META t = some (fc, si, gv)) :
    ∃ b, build_envelope b0 snd rcv t body r = some b ∧
      b.segments = b0.segments ++ envSegStrings b0 snd rcv fc si gv body r ∧
      (isaElements b0.sub_element_sep snd rcv r.dateYYMMDD r.timeHHMM
        (control_number 9 r.isaR))[12]? =
        (ieaElements (control_number 9 r.isaR))[1]? ∧
      (gsElements fc snd rcv r.dateYYYYMMDD r.timeHHMM
        (control_number 4 r.gsR) gv)[5]? =
        (geElements (control_number 4 r.gsR))[1]? ∧
      (stElements si (zfill (control_number 4 r.stR) 4) gv)[1]? =
        (seElements (body.length + 2) (zfill (control_number 4 r.stR) 4))[1]? ∧
      (geElements (control_number 4 r.gsR))[0]? = some "1" ∧
      (ieaElements (control_number 9 r.isaR))[0]? = some "1" :=
  ⟨_, build_envelope_eq b0 snd rcv t body r fc si gv hm, rfl, rfl, rfl, rfl, rfl, rfl⟩

/-- C8: in every ISA header emitted by `build_envelope`, the sender and
receiver identifier elements are exactly `pad(id, 15)` — 15 characters,
truncated when longer, right-padded with spaces when shorter — and the final
(16th) ISA element is the builder's declared sub-element separator. -/
theorem isa_fixed_width_ids (b0 : EDIBuilder) (snd rcv t : String)
    (body : List Seg) (r : EnvRand) (fc si gv : String)
    (hm : TXN_META t = some (fc, si, gv)) :
    ∃ b, build_envelope b0 snd rcv t body r = some b ∧
      b.segments[b0.segments.length]? =
        some (encodeSeg b0.element_sep b0.segment_term "ISA"
          (isaElements b0.sub_element_sep snd rcv r.dateYYMMDD r.timeHHMM
            (control_number 9 r.isaR))) ∧
      (isaElements b0.sub_element_sep snd rcv r.dateYYMMDD r.timeHHMM
        (control_number 9 r.isaR))[5]? = some (pad snd 15) ∧
      (isaElements b0.sub_element_sep snd rcv r.dateYYMMDD r.timeHHMM
        (control_number 9 r.isaR))[7]? = some (pad rcv 15) ∧
      (pad snd 15).length = 15 ∧ (pad rcv 15).length = 15 ∧
      (15 ≤ snd.length → pad snd 15 = snd.take 15) ∧
      (snd.length ≤ 15 →
        pad snd 15 = snd ++ String.mk (List.replicate (15 - snd.length) ' ')) ∧
      (15 ≤ rcv.length → pad rcv 15 = rcv.take 15) ∧
      (rcv.length ≤ 15 →
        pad rcv 15 = rcv ++ String.mk (List.replicate (15 - rcv.length) ' ')) ∧
      (isaElements b0.sub_element_sep snd rcv r.dateYYMMDD r.timeHHMM
        (control_number 9 r.isaR)).length = 16 ∧
      (isaElements b0.sub_element_sep snd rcv r.dateYYMMDD r.timeHHMM
        (control_number 9 r.isaR))[15]? = some b0.sub_element_sep := by
  refine ⟨_, build_envelope_eq b0 snd rcv t body r fc si gv hm, ?_, rfl, rfl,
    pad_length snd 15 ' ', pad_length rcv 15 ' ',
    fun h => pad_eq_take snd 15 ' ' h, fun h => pad_eq_append snd 15 ' ' h,
    fun h => pad_eq_take rcv 15 ' ' h, fun h => pad_eq_append rcv 15 ' ' h,
    rfl, rfl⟩
  show (b0.segments ++ envSegStrings b0 snd rcv fc si gv body r)[b0.segments.length]? = _
  rw [List.getElem?_append_right (Nat.le_refl _), Nat.sub_self]
  rfl
/-- A concrete draw record for witness instantiations. -/
def envR1 : EnvRand :=
  ⟨1, 1, 1, "", "", ""⟩

/-- Witness for the SE-count invariant at the 837P key and an empty body. -/
theorem se_count_invariant_witness :
    TXN_META "837P" = some ("HC", "837", "005010X222A1") ∧
    (∃ b, build_envelope {} "" "" "837P" [] envR1 = some b ∧
      b.segments[2]? = some (encodeSeg "*" "~" "ST"
        (stElements "837" (zfill (control_number 4 1) 4) "005010X222A1")) ∧
      b.segments[3]? = some (encodeSeg "*" "~" "SE"
        (seElements 2 (zfill (control_number 4 1) 4))) ∧
      (seElements 2 (zfill (control_number 4 1) 4))[0]? = some (Nat.repr 2) ∧
      (b.segments.drop 2).take 2 =
        encodeSeg "*" "~" "ST" (stElements "837" (zfill (control_number 4 1) 4) "005010X222A1")
          :: ([] ++ [encodeSeg "*" "~" "SE" (seElements 2 (zfill (control_number 4 1) 4))]) ∧
      ((b.segments.drop 2).take 2).length = 2) :=
  ⟨rfl, se_count_invariant "" "" "837P" [] envR1 "HC" "837" "005010X222A1" rfl⟩

/-- Witness for the control-number consistency at the 837P key. -/
theorem envelope_control_numbers_witness :
    TXN_META "837P" = some ("HC", "837", "005010X222A1") ∧
    (∃ b, build_envelope {} "" "" "837P" [] envR1 = some b ∧
      b.segments = [] ++ envSegStrings {} "" "" "HC" "837" "005010X222A1" [] envR1 ∧
      (isaElements ":" "" "" "" "" (control_number 9 1))[12]? =
        (ieaElements (control_number 9 1))[1]? ∧
      (gsElements "HC" "" "" "" "" (control_number 4 1) "005010X222A1")[5]? =
        (geElements (control_number 4 1))[1]? ∧
      (stElements "837" (zfill (control_number 4 1) 4) "005010X222A1")[1]? =
        (seElements 2 (zfill (control_number 4 1) 4))[1]? ∧
      (geElements (control_number 4 1))[0]? = some "1" ∧
      (ieaElements (control_number 9 1))[0]? = some "1") :=
  ⟨rfl, envelope_control_numbers {} "" "" "837P" [] envR1 "HC" "837" "005010X222A1" rfl⟩

/-- Witness for the ISA fixed-width identifiers at the 837P key, with a
17-character sender (truncated) and a 2-character receiver (padded). -/
theorem isa_fixed_width_ids_witness :
    TXN_META "837P" = some ("HC", "837", "005010X222A1") ∧
    (∃ b, build_envelope {} "ABCDEFGHIJKLMNOPQ" "AB" "837P" [] envR1 = some b ∧
      b.segments[0]? = some (encodeSeg "*" "~" "ISA"
        (isaElements ":" "ABCDEFGHIJKLMNOPQ" "AB" "" "" (control_number 9 1))) ∧
      (isaElements ":" "ABCDEFGHIJKLMNOPQ" "AB" "" "" (control_number 9 1))[5]? =
        some (pad "ABCDEFGHIJKLMNOPQ" 15) ∧
      (isaElements ":" "ABCDEFGHIJKLMNOPQ" "AB" "" "" (control_number 9 1))[7]? =
        some (pad "AB" 15) ∧
      (pad "ABCDEFGHIJKLMNOPQ" 15).length = 15 ∧ (pad "AB" 15).length = 15 ∧
      (15 ≤ ("ABCDEFGHIJKLMNOPQ" : String).length →
        pad "ABCDEFGHIJKLMNOPQ" 15 = ("ABCDEFGHIJKLMNOPQ" : String).take 15) ∧
      (("ABCDEFGHIJKLMNOPQ" : String).length ≤ 15 →
        pad "ABCDEFGHIJKLMNOPQ" 15 = "ABCDEFGHIJKLMNOPQ"
          ++ String.mk (List.replicate (15 - ("ABCDEFGHIJKLMNOPQ" : String).length) ' ')) ∧
      (15 ≤ ("AB" : String).length → pad "AB" 15 = ("AB" : String).take 15) ∧
      (("AB" : String).length ≤ 15 →
        pad "AB" 15 = "AB" ++ String.mk (List.replicate (15 - ("AB" : String).length) ' ')) ∧
      (isaElements ":" "ABCDEFGHIJKLMNOPQ" "AB" "" "" (control_number 9 1)).length = 16 ∧
      (isaElements ":" "ABCDEFGHIJKLMNOPQ" "AB" "" "" (control_number 9 1))[15]? =
        some ":") :=
  ⟨rfl, isa_fixed_width_ids {} "ABCDEFGHIJKLMNOPQ" "AB" "837P" [] envR1
    "HC" "837" "005010X222A1" rfl⟩
/-- A digit character for a remainder below ten. -/
theorem digitChar_isDigit (m : Nat) (h : m < 10) : (Nat.digitChar m).isDigit = true := by
  interval_cases m <;> decide

/-- Every character `Nat.toDigitsCore` adds in base ten is a decimal digit. -/
theorem toDigitsCore_digits :
    ∀ (f n : Nat) (l : List Char), (∀ c ∈ l, c.isDigit = true) →
      ∀ c ∈ Nat.toDigitsCore 10 f n l, c.isDigit = true := by
  intro f
  induction f with
  | zero => intro n l hl c hc; exact hl c hc
  | succ f ih =>
    intro n l hl c hc
    simp only [Nat.toDigitsCore] at hc
    by_cases h0 : n / 10 = 0
    · simp only [h0, if_true] at hc
      rcases List.mem_cons.mp hc with h | h
      · subst h; exact digitChar_isDigit _ (Nat.mod_lt _ (by norm_num))
      · exact hl c h
    · simp only [h0, if_false] at hc
      refine ih (n / 10) (Nat.digitChar (n % 10) :: l) ?_ c hc
      intro d hd
      rcases List.mem_cons.mp hd with h | h
      · subst h; exact digitChar_isDigit _ (Nat.mod_lt _ (by norm_num))
      · exact hl d h
/-- `Nat.toDigitsCore` never shortens its accumulator. -/
theorem toDigitsCore_length_le :
    ∀ (f n : Nat) (l : List Char), l.length ≤ (Nat.toDigitsCore 10 f n l).length := by
  intro f
  induction f with
  | zero => intro n l; simp [Nat.toDigitsCore]
  | succ f ih =>
    intro n l
    simp only [Nat.toDigitsCore]
    by_cases h0 : n / 10 = 0
    · simp [h0]
    · simp only [h0, if_false]
      calc l.length ≤ (Nat.digitChar (n % 10) :: l).length := by simp
        _ ≤ _ := ih (n / 10) (Nat.digitChar (n % 10) :: l)

/-- The decimal representation of a natural number is all digit characters. -/
theorem repr_data_digits (n : Nat) : ∀ c ∈ (Nat.repr n).data, c.isDigit = true := by
  intro c hc
  have he : (Nat.repr n).data = Nat.toDigitsCore 10 (n + 1) n [] := rfl
  rw [he] at hc
  exact toDigitsCore_digits (n + 1) n [] (by simp) c hc

/-- The decimal representation of a natural number is nonempty. -/
theorem repr_data_ne_nil (n : Nat) : (Nat.repr n).data ≠ [] := by
  have he : (Nat.repr n).data = Nat.toDigitsCore 10 (n + 1) n [] := rfl
  rw [he]
  simp only [Nat.toDigitsCore]
  by_cases h0 : n / 10 = 0
  · simp [h0]
  · simp only [h0, if_false]
    intro hnil
    have h1 := toDigitsCore_length_le n (n / 10) [Nat.digitChar (n % 10)]
    rw [hnil] at h1
    simp at h1

/-- The decimal representation starts with a digit character. -/
theorem repr_head_digit (n : Nat) :
    ∃ c rest, (Nat.repr n).data = c :: rest ∧ c.isDigit = true := by
  cases hd : (Nat.repr n).data with
  | nil => exact absurd hd (repr_data_ne_nil n)
  | cons c rest =>
    refine ⟨c, rest, rfl, repr_data_digits n c ?_⟩
    rw [hd]
    exact List.mem_cons_self c rest

/-- `zfill` on a string that starts with a digit pads plain zeros on the left. -/
theorem zfill_of_digit_head (s : String) (w : Nat) (c : Char) (rest : List Char)
    (hd : s.data = c :: rest) (hc : c.isDigit = true) :
    zfill s w = String.mk (List.replicate (w - s.length) '0') ++ s := by
  have hne : ¬(c = '-' ∨ c = '+') := by
    rintro (rfl | rfl) <;> exact absurd hc (by decide)
  show (match s.data with
    | c :: rest =>
      if c = '-' ∨ c = '+' then
        String.mk (c :: (List.replicate (w - s.length) '0' ++ rest))
      else
        String.mk (List.replicate (w - s.length) '0') ++ s
    | [] => String.mk (List.replicate w '0')) = _
  rw [hd]
  simp only [hne, if_false]

/-- Fixed-width behaviour of `control_number` within the `randint` range. -/
theorem control_number_spec (d r : Nat) (hd : 0 < d) (_h1 : 1 ≤ r) (h2 : r < 10 ^ d) :
    (control_number d r).length = d ∧
    (∀ c ∈ (control_number d r).data, c.isDigit = true) ∧
    control_number d r =
      String.mk (List.replicate (d - (Nat.repr r).length) '0') ++ Nat.repr r := by
  obtain ⟨c, rest, hdata, hdig⟩ := repr_head_digit r
  have hz : control_number d r =
      String.mk (List.replicate (d - (Nat.repr r).length) '0') ++ Nat.repr r :=
    zfill_of_digit_head (Nat.repr r) d c rest hdata hdig
  have hle : (Nat.repr r).length ≤ d := Nat.repr_length r d hd h2
  refine ⟨?_, ?_, hz⟩
  · rw [hz]
    have : (String.mk (List.replicate (d - (Nat.repr r).length) '0') ++ Nat.repr r).data
        = List.replicate (d - (Nat.repr r).length) '0' ++ (Nat.repr r).data :=
      String.data_append _ _
    show (String.mk (List.replicate (d - (Nat.repr r).length) '0') ++ Nat.repr r).data.length = d
    rw [this]
    simp only [List.length_append, List.length_replicate]
    have hrl : (Nat.repr r).length = (Nat.repr r).data.length := rfl
    omega
  · rw [hz]
    intro ch hch
    rw [String.data_append] at hch
    rcases List.mem_append.mp hch with h | h
    · have : ch = '0' := List.eq_of_mem_replicate h
      subst this; decide
    · exact repr_data_digits r ch h

/-- C7: every generated interchange control number (width 9) and every group
or transaction-set control number (width 4) is a decimal string of exactly the
fixed width, zero-padded on the left whenever `str(randint)` has fewer digits
than the width. -/
theorem control_number_fixed_width :
    (∀ r : Nat, 1 ≤ r → r < 10 ^ 9 →
      (control_number 9 r).length = 9 ∧
      (∀ c ∈ (control_number 9 r).data, c.isDigit = true) ∧
      control_number 9 r =
        String.mk (List.replicate (9 - (Nat.repr r).length) '0') ++ Nat.repr r) ∧
    (∀ r : Nat, 1 ≤ r → r < 10 ^ 4 →
      (control_number 4 r).length = 4 ∧
      (∀ c ∈ (control_number 4 r).data, c.isDigit = true) ∧
      control_number 4 r =
        String.mk (List.replicate (4 - (Nat.repr r).length) '0') ++ Nat.repr r) :=
  ⟨fun r h1 h2 => control_number_spec 9 r (by norm_num) h1 h2,
   fun r h1 h2 => control_number_spec 4 r (by norm_num) h1 h2⟩

/-- Witness for the fixed-width control numbers at the draw 123. -/
theorem control_number_fixed_width_witness :
    (1 ≤ 123 ∧ 123 < 10 ^ 9 ∧
      ((control_number 9 123).length = 9 ∧
       (∀ c ∈ (control_number 9 123).data, c.isDigit = true) ∧
       control_number 9 123 =
         String.mk (List.replicate (9 - (Nat.repr 123).length) '0') ++ Nat.repr 123)) ∧
    (1 ≤ 123 ∧ 123 < 10 ^ 4 ∧
      ((control_number 4 123).length = 4 ∧
       (∀ c ∈ (control_number 4 123).data, c.isDigit = true) ∧
       control_number 4 123 =
         String.mk (List.replicate (4 - (Nat.repr 123).length) '0') ++ Nat.repr 123)) :=
  ⟨⟨by norm_num, by norm_num,
    control_number_fixed_width.1 123 (by norm_num) (by norm_num)⟩,
   ⟨by norm_num, by norm_num,
    control_number_fixed_width.2 123 (by norm_num) (by norm_num)⟩⟩
/-- Character data of the `go` loop of `String.intercalate`. -/
theorem intercalate_go_data (s : String) :
    ∀ (l : List String) (acc : String),
      (String.intercalate.go acc s l).data =
        acc.data ++ l.flatMap (fun a => s.data ++ a.data) := by
  intro l
  induction l with
  | nil => intro acc; simp [String.intercalate.go]
  | cons a as ih =>
    intro acc
    show (String.intercalate.go (acc ++ s ++ a) s as).data = _
    rw [ih (acc ++ s ++ a)]
    simp [String.data_append, List.append_assoc]

/-- Character data of `String.intercalate` on an empty list. -/
theorem intercalate_nil_data (s : String) : (String.intercalate s []).data = [] :=
  rfl

/-- Character data of `String.intercalate` on a nonempty list. -/
theorem intercalate_cons_data (s a : String) (as : List String) :
    (String.intercalate s (a :: as)).data =
      a.data ++ as.flatMap (fun x => s.data ++ x.data) := by
  show (String.intercalate.go a s as).data = _
  rw [intercalate_go_data s as a]

/-- Removing every newline character from a string. -/
def stripNewlines (s : String) : String :=
  String.mk (s.data.filter (fun c => !(c == '\n')))

/-- Filtering out newlines from a newline-free string changes nothing. -/
theorem newline_filter_eq_self (x : String) (hx : ('\n') ∉ x.data) :
    x.data.filter (fun c => !(c == '\n')) = x.data :=
  List.filter_eq_self.mpr (fun c hc => by
    have hne : c ≠ '\n' := fun hceq => hx (hceq ▸ hc)
    simp [hne])

/-- Filtering newlines out of newline-joined newline-free strings gives the
plain concatenation. -/
theorem strip_flatMap (as : List String) (h : ∀ x ∈ as, ('\n') ∉ x.data) :
    (as.flatMap (fun x => ("\n" : String).data ++ x.data)).filter
        (fun c => !(c == '\n')) =
      as.flatMap (fun x => ("" : String).data ++ x.data) := by
  induction as with
  | nil => rfl
  | cons a as ih =>
    rw [List.flatMap_cons, List.flatMap_cons, List.filter_append]
    rw [show (("\n" : String).data ++ a.data).filter (fun c => !(c == '\n'))
        = a.data.filter (fun c => !(c == '\n')) from by simp]
    rw [newline_filter_eq_self a (h a (by simp))]
    rw [ih (fun x hx => h x (by simp [hx]))]
    rfl

/-- Stripping newlines from the newline-join equals the empty-join. -/
theorem render_strip (l : List String) (h : ∀ x ∈ l, ('\n') ∉ x.data) :
    stripNewlines (String.intercalate "\n" l) = String.intercalate "" l := by
  apply str_ext
  show (String.intercalate "\n" l).data.filter (fun c => !(c == '\n')) =
    (String.intercalate "" l).data
  cases l with
  | nil => rfl
  | cons a as =>
    rw [intercalate_cons_data, intercalate_cons_data, List.filter_append,
        newline_filter_eq_self a (h a (by simp)),
        strip_flatMap as (fun x hx => h x (by simp [hx]))]

/-- C6: for every builder whose added segments contain no newline character,
pretty mode joins the rendered segments with a newline, compact mode joins
them with the empty string, and removing all newline characters from the
pretty render yields exactly the compact render. -/
theorem pretty_compact_equivalence (b : EDIBuilder)
    (h : ∀ seg ∈ b.segments, ('\n') ∉ seg.data) :
    b.render true = String.intercalate "\n" b.segments ∧
    b.render false = String.intercalate "" b.segments ∧
    stripNewlines (b.render true) = b.render false := by
  refine ⟨rfl, rfl, ?_⟩
  show stripNewlines (String.intercalate "\n" b.segments) =
    String.intercalate "" b.segments
  exact render_strip b.segments h

/-- A concrete builder for the render-equivalence witness. -/
def builderW : EDIBuilder :=
  ⟨"*", "~", ":", ["ISA*A~", "GS*B~", "SE*2*0001~"]⟩

/-- Witness for the pretty/compact equivalence on a concrete builder. -/
theorem pretty_compact_equivalence_witness :
    (∀ seg ∈ builderW.segments, ('\n') ∉ seg.data) ∧
    (builderW.render true = String.intercalate "\n" builderW.segments ∧
     builderW.render false = String.intercalate "" builderW.segments ∧
     stripNewlines (builderW.render true) = builderW.render false) :=
  ⟨by decide, pretty_compact_equivalence builderW (by decide)⟩
/-- C5: generation with a transaction type key outside the supported set fails
with the descriptive `ValueError` listing the valid keys, and never returns a
document. -/
theorem unknown_txn_type_rejected (t : String) (n : Option Nat) (p : Bool)
    (g : GenRand) (h : t ∉ GENERATOR_KEYS) :
    generate_edi t n p g =
      Except.error ("Unsupported transaction type: " ++ t ++ ". Supported: "
        ++ String.intercalate ", " GENERATOR_KEYS) ∧
    ∀ out, generate_edi t n p g ≠ Except.ok out := by
  have he : generate_edi t n p g =
      Except.error ("Unsupported transaction type: " ++ t ++ ". Supported: "
        ++ String.intercalate ", " GENERATOR_KEYS) := by
    unfold generate_edi
    rw [if_pos h]
  refine ⟨he, fun out hok => ?_⟩
  rw [he] at hok
  exact Except.noConfusion hok

/-- Concrete draw values used by witnesses and counterexamples. -/
def patientW : Patient := ⟨"", "", "", "", ""⟩

/-- A concrete address draw. -/
def addressW : Address := ⟨"", "", "", ""⟩

/-- A concrete provider draw. -/
def providerW : Provider := ⟨"", "", ""⟩

/-- A concrete procedure draw. -/
def procW : Proc := ⟨"", "", 0⟩

/-- A concrete 837P per-claim draw. -/
def claim837W : Claim837Rand :=
  ⟨patientW, "", addressW, "", "", "", ("", ""), [], "", "", procW, []⟩

/-- A concrete 837P draw record (count draw 3, as `randint(3, 10)` may return). -/
def rand837pW : Rand837p :=
  ⟨3, "", "", "", "", "", "", "", "", "", "", 0, providerW, "", "", addressW,
   fun _ => claim837W⟩

/-- A concrete 835 per-claim draw. -/
def claim835W : Claim835Rand := ⟨patientW, "", procW, [], "", 0, "", "", ""⟩

/-- A concrete 835 draw record. -/
def rand835W : Rand835 :=
  ⟨5, "", "", addressW, "", "", 0, "", "", addressW, "", fun _ => claim835W, 0⟩

/-- A concrete 270 per-subscriber draw. -/
def sub270W : Sub270Rand := ⟨patientW, "", "", "", []⟩

/-- A concrete 270 draw record. -/
def rand270W : Rand270 := ⟨3, "", "", "", "", "", "", "", "", fun _ => sub270W⟩

/-- A concrete 271 per-subscriber draw. -/
def sub271W : Sub271Rand := ⟨patientW, addressW, "", "", "", "", false, [], 0, 0, ""⟩

/-- A concrete 271 draw record. -/
def rand271W : Rand271 := ⟨3, "", "", "", "", "", "", "", fun _ => sub271W⟩

/-- A concrete 278 per-request draw. -/
def req278W : Req278Rand :=
  ⟨patientW, providerW, "", addressW, "", "", "", "", 0, "", addressW, "", "",
   "", ("", ""), [], 0, "", "", 0, "", []⟩

/-- A concrete 278 draw record. -/
def rand278W : Rand278 := ⟨3, "", "", "", "", "", "", "", "", "", fun _ => req278W⟩

/-- A concrete 999 per-transaction draw. -/
def txn999W : Txn999Rand := ⟨1, Outcome999.acc⟩

/-- A concrete 999 draw record. -/
def rand999W : Rand999 := ⟨5, "", "", "", 1, AckTxn.t837, fun _ => txn999W⟩

/-- A concrete full draw record for `generate_edi`. -/
def genRandW : GenRand :=
  ⟨envR1, rand837pW, rand835W, rand270W, rand271W, rand278W, rand999W⟩

/-- Witness for the unknown-key rejection at the key "834". -/
theorem unknown_txn_type_rejected_witness :
    ("834" ∉ GENERATOR_KEYS) ∧
    (generate_edi "834" none false genRandW =
      Except.error ("Unsupported transaction type: " ++ "834" ++ ". Supported: "
        ++ String.intercalate ", " GENERATOR_KEYS) ∧
     ∀ out, generate_edi "834" none false genRandW ≠ Except.ok out) :=
  ⟨by decide, unknown_txn_type_rejected "834" none false genRandW (by decide)⟩
/-- The SE segment of `envDoc` sits just past the body, at index `len + 3`. -/
theorem envDoc_se_at (snd rcv fc si gv : String) (body : List Seg) (r : EnvRand) :
    (envDoc snd rcv fc si gv body r)[body.length + 3]? =
      some (encodeSeg "*" "~" "SE"
        (seElements (body.length + 2) (zfill (control_number 4 r.stR) 4))) := by
  rw [envDoc, getElem?_triple_append _ _ _ _ _ _ (by simp)]
  rfl

/-- C3 counterexample: with `countHint = 0` the 837P generator still produces a
nonempty body (the `or`-falsiness replaces 0 with the random count draw, and
the fixed header segments are always emitted), so the SE count element of the
resulting envelope is not "2". -/
theorem count_hint_zero_counterexample :
    (generate_837p (some 0) rand837pW).1 ≠ [] ∧
    ∃ b, build_envelope {} "" "" "837P" (generate_837p (some 0) rand837pW).1 envR1
        = some b ∧
      b.segments[(generate_837p (some 0) rand837pW).1.length + 3]? =
        some (encodeSeg "*" "~" "SE"
          (seElements ((generate_837p (some 0) rand837pW).1.length + 2)
            (zfill (control_number 4 1) 4))) ∧
      (seElements ((generate_837p (some 0) rand837pW).1.length + 2)
          (zfill (control_number 4 1) 4))[0]? ≠ some "2" := by
  refine ⟨by decide, _,
    build_envelope_default "" "" "837P" (generate_837p (some 0) rand837pW).1 envR1
      "HC" "837" "005010X222A1" rfl,
    envDoc_se_at "" "" "HC" "837" "005010X222A1" (generate_837p (some 0) rand837pW).1
      envR1, ?_⟩
  decide

/-- C3 amended: `countHint = 0` is treated as absent (Python `or` falsiness),
so the generator uses its random count draw; the body still contains the fixed
header segments, hence is nonempty, and the envelope is structurally valid with
an SE count element of `str(len(body) + 2)` where `len(body) + 2 > 2`. -/
theorem count_hint_zero_amended (r : Rand837p) (snd rcv : String) (er : EnvRand) :
    resolveCount (some 0) r.countDraw = r.countDraw ∧
    10 ≤ (generate_837p (some 0) r).1.length ∧
    2 < (generate_837p (some 0) r).1.length + 2 ∧
    ∃ b, build_envelope {} snd rcv "837P" (generate_837p (some 0) r).1 er = some b ∧
      b.segments[(generate_837p (some 0) r).1.length + 3]? =
        some (encodeSeg "*" "~" "SE"
          (seElements ((generate_837p (some 0) r).1.length + 2)
            (zfill (control_number 4 er.stR) 4))) := by
  have hlen : 10 ≤ (generate_837p (some 0) r).1.length := by
    simp [generate_837p, header837]
  exact ⟨rfl, hlen, by omega, _,
    build_envelope_default snd rcv "837P" (generate_837p (some 0) r).1 er
      "HC" "837" "005010X222A1" rfl,
    envDoc_se_at snd rcv "HC" "837" "005010X222A1" (generate_837p (some 0) r).1 er⟩
/-- Filtering distributes over `flatMap`. -/
theorem filter_flatMap {α β : Type} (l : List α) (g : α → List β) (p : β → Bool) :
    (l.flatMap g).filter p = l.flatMap (fun a => (g a).filter p) := by
  induction l with
  | nil => rfl
  | cons a l ih => rw [List.flatMap_cons, List.flatMap_cons, List.filter_append, ih]

/-- A `flatMap` of singletons is a `map`. -/
theorem flatMap_singleton_map {α β : Type} (l : List α) (f : α → β) :
    (l.flatMap fun a => [f a]) = l.map f := by
  induction l with
  | nil => rfl
  | cons a l ih => rw [List.flatMap_cons, List.map_cons, ih]; rfl

/-- A boolean filter and its complement split the length of a list. -/
theorem filter_bool_split {α : Type} (l : List α) (p : α → Bool) :
    (l.filter p).length + (l.filter (fun a => !(p a))).length = l.length := by
  induction l with
  | nil => rfl
  | cons a l ih => by_cases h : p a <;> simp [List.filter_cons, h, ← ih] <;> omega

/-- Number of segments with the given segment id. -/
def countSid (sid : String) (segs : List Seg) : Nat :=
  (segs.filter (fun s => s.sid == sid)).length

/-- The status elements of the IK5 segments, in order. -/
def ik5Statuses (segs : List Seg) : List String :=
  (segs.filter (fun s => s.sid == "IK5")).map (fun s => s.els.headD "")

/-- Error-note segments contribute only IK3/IK4 segments. -/
theorem err999_filter_none (es : List Err999) (sid : String)
    (h3 : (("IK3" : String) == sid) = false) (h4 : (("IK4" : String) == sid) = false) :
    (es.flatMap err999Segs).filter (fun s => s.sid == sid) = [] := by
  induction es with
  | nil => rfl
  | cons e es ih =>
    rw [List.flatMap_cons, List.filter_append, ih]
    simp [err999Segs, h3, h4]

/-- One 999 iteration contributes exactly one AK2 segment. -/
theorem txn999_filter_ak2 (ack : AckTxn) (t : Txn999Rand) :
    (txn999Segs ack t).filter (fun s => s.sid == "AK2") =
      [Seg.mk "AK2" [ack.code, zfill (control_number 4 t.stR) 4, ack.gsVersion]] := by
  show (Seg.mk "AK2" [ack.code, zfill (control_number 4 t.stR) 4, ack.gsVersion]
      :: (t.outcome.errs.flatMap err999Segs ++ [Seg.mk "IK5" [t.outcome.status]])).filter
        (fun s => s.sid == "AK2") = _
  rw [List.filter_cons, List.filter_append,
      err999_filter_none t.outcome.errs "AK2" (by decide) (by decide)]
  simp

/-- One 999 iteration contributes exactly one IK5 segment carrying its status. -/
theorem txn999_filter_ik5 (ack : AckTxn) (t : Txn999Rand) :
    (txn999Segs ack t).filter (fun s => s.sid == "IK5") =
      [Seg.mk "IK5" [t.outcome.status]] := by
  show (Seg.mk "AK2" [ack.code, zfill (control_number 4 t.stR) 4, ack.gsVersion]
      :: (t.outcome.errs.flatMap err999Segs ++ [Seg.mk "IK5" [t.outcome.status]])).filter
        (fun s => s.sid == "IK5") = _
  rw [List.filter_cons, List.filter_append,
      err999_filter_none t.outcome.errs "IK5" (by decide) (by decide)]
  simp

/-- One 999 iteration contributes no AK9 segment. -/
theorem txn999_filter_ak9 (ack : AckTxn) (t : Txn999Rand) :
    (txn999Segs ack t).filter (fun s => s.sid == "AK9") = [] := by
  show (Seg.mk "AK2" [ack.code, zfill (control_number 4 t.stR) 4, ack.gsVersion]
      :: (t.outcome.errs.flatMap err999Segs ++ [Seg.mk "IK5" [t.outcome.status]])).filter
        (fun s => s.sid == "AK9") = _
  rw [List.filter_cons, List.filter_append,
      err999_filter_none t.outcome.errs "AK9" (by decide) (by decide)]
  simp

/-- The boolean IK5-status test agrees with the accepted counter's test. -/
theorem status_accepted_eq (o : Outcome999) :
    ((o.status == "A") || (o.status == "E")) = o.isAccepted := by
  cases o <;> rfl

/-- The boolean IK5-status rejection test is the complement of acceptance. -/
theorem status_rejected_eq (o : Outcome999) :
    (o.status == "R") = !o.isAccepted := by
  cases o <;> rfl

/-- The 999 body contains exactly `count` AK2 segments. -/
theorem generate_999_ak2_count (n : Option Nat) (r : Rand999) :
    countSid "AK2" (generate_999 n r).1 = resolveCount n r.countDraw := by
  show ((Seg.mk "AK1" [r.ackTxn.funcCode, control_number 4 r.origGsR, r.ackTxn.gsVersion]
      :: ((List.range (resolveCount n r.countDraw)).flatMap
            (fun j => txn999Segs r.ackTxn (r.txns j))
          ++ [Seg.mk "AK9" [(if rejected999 r (resolveCount n r.countDraw) = 0 then "A"
                else if accepted999 r (resolveCount n r.countDraw) > 0 then "P" else "R"),
              Nat.repr (accepted999 r (resolveCount n r.countDraw)
                + rejected999 r (resolveCount n r.countDraw)),
              Nat.repr (accepted999 r (resolveCount n r.countDraw)
                + rejected999 r (resolveCount n r.countDraw)),
              Nat.repr (accepted999 r (resolveCount n r.countDraw))]]) ).filter
        (fun s => s.sid == "AK2")).length = resolveCount n r.countDraw
  rw [List.filter_cons, List.filter_append, filter_flatMap]
  simp only [txn999_filter_ak2]
  rw [flatMap_singleton_map]
  simp

/-- The 999 IK5 statuses are the per-iteration outcome statuses, in order. -/
theorem generate_999_ik5 (n : Option Nat) (r : Rand999) :
    ik5Statuses (generate_999 n r).1 =
      (List.range (resolveCount n r.countDraw)).map
        (fun j => (r.txns j).outcome.status) := by
  show (((Seg.mk "AK1" [r.ackTxn.funcCode, control_number 4 r.origGsR, r.ackTxn.gsVersion]
      :: ((List.range (resolveCount n r.countDraw)).flatMap
            (fun j => txn999Segs r.ackTxn (r.txns j))
          ++ [Seg.mk "AK9" [(if rejected999 r (resolveCount n r.countDraw) = 0 then "A"
                else if accepted999 r (resolveCount n r.countDraw) > 0 then "P" else "R"),
              Nat.repr (accepted999 r (resolveCount n r.countDraw)
                + rejected999 r (resolveCount n r.countDraw)),
              Nat.repr (accepted999 r (resolveCount n r.countDraw)
                + rejected999 r (resolveCount n r.countDraw)),
              Nat.repr (accepted999 r (resolveCount n r.countDraw))]]) ).filter
        (fun s => s.sid == "IK5")).map (fun s => s.els.headD "")) =
      (List.range (resolveCount n r.countDraw)).map
        (fun j => (r.txns j).outcome.status)
  rw [List.filter_cons, List.filter_append, filter_flatMap]
  simp only [txn999_filter_ik5]
  rw [flatMap_singleton_map]
  simp
/-- A `flatMap` of empties is empty. -/
theorem flatMap_nil_fun {α β : Type} (l : List α) :
    (l.flatMap fun _ => ([] : List β)) = [] := by
  induction l with
  | nil => rfl
  | cons a l ih => rw [List.flatMap_cons, ih]; rfl

/-- The 999 body contains exactly one AK9 segment, carrying the group status,
the total twice, and the accepted count. -/
theorem generate_999_ak9 (n : Option Nat) (r : Rand999) :
    (generate_999 n r).1.filter (fun s => s.sid == "AK9") =
      [Seg.mk "AK9" [(if rejected999 r (resolveCount n r.countDraw) = 0 then "A"
          else if accepted999 r (resolveCount n r.countDraw) > 0 then "P" else "R"),
        Nat.repr (accepted999 r (resolveCount n r.countDraw)
          + rejected999 r (resolveCount n r.countDraw)),
        Nat.repr (accepted999 r (resolveCount n r.countDraw)
          + rejected999 r (resolveCount n r.countDraw)),
        Nat.repr (accepted999 r (resolveCount n r.countDraw))]] := by
  show (Seg.mk "AK1" [r.ackTxn.funcCode, control_number 4 r.origGsR, r.ackTxn.gsVersion]
      :: ((List.range (resolveCount n r.countDraw)).flatMap
            (fun j => txn999Segs r.ackTxn (r.txns j))
          ++ [Seg.mk "AK9" [(if rejected999 r (resolveCount n r.countDraw) = 0 then "A"
                else if accepted999 r (resolveCount n r.countDraw) > 0 then "P" else "R"),
              Nat.repr (accepted999 r (resolveCount n r.countDraw)
                + rejected999 r (resolveCount n r.countDraw)),
              Nat.repr (accepted999 r (resolveCount n r.countDraw)
                + rejected999 r (resolveCount n r.countDraw)),
              Nat.repr (accepted999 r (resolveCount n r.countDraw))]]) ).filter
        (fun s => s.sid == "AK9") = _
  rw [List.filter_cons, List.filter_append, filter_flatMap]
  simp only [txn999_filter_ak9]
  rw [flatMap_nil_fun]
  simp

/-- The accepted IK5 count of a 999 body. -/
def acceptedIK5 (segs : List Seg) : Nat :=
  ((ik5Statuses segs).filter (fun st => st == "A" || st == "E")).length

/-- The rejected IK5 count of a 999 body. -/
def rejectedIK5 (segs : List Seg) : Nat :=
  ((ik5Statuses segs).filter (fun st => st == "R")).length
/-- C10: in every 999 body, the AK9 trailer's included and received elements
both equal the number of AK2 segments, its accepted element equals the number
of IK5 segments with status A or E, and its group status code is A when no
transaction set was rejected, R when none was accepted, and P otherwise. -/
theorem ak9_group_trailer_consistency (n : Option Nat) (r : Rand999)
    (h : 1 ≤ resolveCount n r.countDraw) :
    ∃ gStat : String,
      ((generate_999 n r).1.filter (fun s => s.sid == "AK9")).map (fun s => s.els) =
        [[gStat, Nat.repr (countSid "AK2" (generate_999 n r).1),
          Nat.repr (countSid "AK2" (generate_999 n r).1),
          Nat.repr (acceptedIK5 (generate_999 n r).1)]] ∧
      (rejectedIK5 (generate_999 n r).1 = 0 → gStat = "A") ∧
      (acceptedIK5 (generate_999 n r).1 = 0 → gStat = "R") ∧
      (0 < acceptedIK5 (generate_999 n r).1 →
        0 < rejectedIK5 (generate_999 n r).1 → gStat = "P") := by
  have hacc : acceptedIK5 (generate_999 n r).1 =
      accepted999 r (resolveCount n r.countDraw) := by
    rw [acceptedIK5, generate_999_ik5, List.filter_map, List.length_map]
    have hfun : ((fun st => (st == "A") || (st == "E"))
        ∘ fun j => (r.txns j).outcome.status) =
        fun j => (r.txns j).outcome.isAccepted :=
      funext (fun j => status_accepted_eq _)
    rw [hfun]
    rfl
  have hrej : rejectedIK5 (generate_999 n r).1 =
      rejected999 r (resolveCount n r.countDraw) := by
    rw [rejectedIK5, generate_999_ik5, List.filter_map, List.length_map]
    have hfun : ((fun st => st == "R") ∘ fun j => (r.txns j).outcome.status) =
        fun j => !(r.txns j).outcome.isAccepted :=
      funext (fun j => status_rejected_eq _)
    rw [hfun]
    rfl
  have htot : accepted999 r (resolveCount n r.countDraw)
      + rejected999 r (resolveCount n r.countDraw) = resolveCount n r.countDraw := by
    have hsplit := filter_bool_split (List.range (resolveCount n r.countDraw))
      (fun j => (r.txns j).outcome.isAccepted)
    simpa [accepted999, rejected999] using hsplit
  refine ⟨(if rejected999 r (resolveCount n r.countDraw) = 0 then "A"
      else if accepted999 r (resolveCount n r.countDraw) > 0 then "P" else "R"),
    ?_, ?_, ?_, ?_⟩
  · rw [generate_999_ak9]
    simp only [List.map_cons, List.map_nil]
    rw [generate_999_ak2_count, hacc, htot]
  · intro h0
    rw [hrej] at h0
    simp [h0]
  · intro h0
    rw [hacc] at h0
    have hr0 : rejected999 r (resolveCount n r.countDraw) ≠ 0 := by omega
    simp [h0, hr0]
  · intro ha hb
    rw [hacc] at ha
    rw [hrej] at hb
    have hr0 : rejected999 r (resolveCount n r.countDraw) ≠ 0 := by omega
    simp [hr0, ha]
/-- Witness for the AK9 consistency at a concrete 999 draw record. -/
theorem ak9_group_trailer_consistency_witness :
    1 ≤ resolveCount none rand999W.countDraw ∧
    (∃ gStat : String,
      ((generate_999 none rand999W).1.filter (fun s => s.sid == "AK9")).map
          (fun s => s.els) =
        [[gStat, Nat.repr (countSid "AK2" (generate_999 none rand999W).1),
          Nat.repr (countSid "AK2" (generate_999 none rand999W).1),
          Nat.repr (acceptedIK5 (generate_999 none rand999W).1)]] ∧
      (rejectedIK5 (generate_999 none rand999W).1 = 0 → gStat = "A") ∧
      (acceptedIK5 (generate_999 none rand999W).1 = 0 → gStat = "R") ∧
      (0 < acceptedIK5 (generate_999 none rand999W).1 →
        0 < rejectedIK5 (generate_999 none rand999W).1 → gStat = "P")) :=
  ⟨by decide, ak9_group_trailer_consistency none rand999W (by decide)⟩
/-- The 835 total payment: claims total plus the PLB adjustment when nonzero. -/
def total835 (r : Rand835) (count : Nat) : ℚ :=
  if plbAdj835 r ≠ 0 then totalClaims835 r count + plbAdj835 r
  else totalClaims835 r count

/-- The BPR segment finally written into slot 0 of the 835 body. -/
def bpr835 (r : Rand835) (count : Nat) : Seg :=
  Seg.mk "BPR" ["C", fmt2 (total835 r count), "C", "ACH", "CTX",
    "01", "999999992", "DA", "123456", "1" ++ r.payerId, "", "01", "999988880",
    "DA", r.checkNum, r.payDate]

/-- Everything after the BPR slot in the finished 835 body. -/
def rest835 (r : Rand835) (count : Nat) : List (Option Seg) :=
  (pre835Segs r).map some
    ++ ((List.range count).flatMap (fun j => claim835Segs (r.claims j))).map some
    ++ (if plbAdj835 r ≠ 0 then
         [some (Seg.mk "PLB" [r.payeeNpi, r.payDate, "CV:CP", fmt2 (plbAdj835 r)])]
       else [])

/-- The finished 835 body is the BPR followed by the untouched remainder. -/
theorem generate_835_eq (n : Option Nat) (r : Rand835) :
    (generate_835 n r).1 =
      some (bpr835 r (resolveCount n r.countDraw))
        :: rest835 r (resolveCount n r.countDraw) := by
  by_cases hplb : plbAdj835 r ≠ 0
  · simp [generate_835, rest835, bpr835, total835, hplb, List.append_assoc]
  · simp [generate_835, rest835, bpr835, total835, hplb, List.append_assoc]

/-- The payment element (fourth element) of a CLP segment, nothing otherwise. -/
def clpExtract (s : Seg) : Option String :=
  if s.sid = "CLP" then s.els[3]? else none

/-- The payment elements of all CLP segments in an 835 body, in order. -/
def clpPayments (segs : List (Option Seg)) : List String :=
  segs.filterMap (fun os => os.bind clpExtract)

/-- `filterMap` distributes over `flatMap`. -/
theorem filterMap_flatMap {α β γ : Type} (l : List α) (g : α → List β)
    (f : β → Option γ) :
    (l.flatMap g).filterMap f = l.flatMap (fun a => (g a).filterMap f) := by
  induction l with
  | nil => rfl
  | cons a l ih => rw [List.flatMap_cons, List.flatMap_cons, List.filterMap_append, ih]

/-- Service-line blocks of the 835 contain no CLP segment. -/
theorem svc835_clp_none (c : Claim835Rand) (p : Proc) :
    (svc835Segs c p).filterMap clpExtract = [] := by
  by_cases h : round2 (p.price
      - round2 (p.price * (claim835Payment c / totalCharged835 c))) > 0 <;>
    simp [svc835Segs, h, clpExtract]

/-- One 835 claim block carries exactly one CLP payment element. -/
theorem claim835_clp (c : Claim835Rand) :
    (claim835Segs c).filterMap clpExtract = [fmt2 (claim835Payment c)] := by
  unfold claim835Segs
  rw [List.filterMap_append, filterMap_flatMap]
  simp only [svc835_clp_none]
  rw [flatMap_nil_fun]
  simp [clpExtract]
/-- C9: the placeholder reserved at index 0 of the 835 body is overwritten
before return: the first entry is the complete BPR segment whose monetary
amount element is the formatted sum of all CLP payment amounts plus the PLB
adjustment when a PLB segment is present, and no placeholder remains. -/
theorem bpr_balances_clp_sum (n : Option Nat) (r : Rand835) :
    ∃ rest, (generate_835 n r).1 =
        some (bpr835 r (resolveCount n r.countDraw)) :: rest ∧
      (bpr835 r (resolveCount n r.countDraw)).sid = "BPR" ∧
      (bpr835 r (resolveCount n r.countDraw)).els[1]? =
        some (fmt2 (total835 r (resolveCount n r.countDraw))) ∧
      total835 r (resolveCount n r.countDraw) =
        (if plbAdj835 r ≠ 0
         then totalClaims835 r (resolveCount n r.countDraw) + plbAdj835 r
         else totalClaims835 r (resolveCount n r.countDraw)) ∧
      totalClaims835 r (resolveCount n r.countDraw) =
        (List.range (resolveCount n r.countDraw)).foldl
          (fun acc j => acc + claim835Payment (r.claims j)) 0 ∧
      clpPayments (generate_835 n r).1 =
        (List.range (resolveCount n r.countDraw)).map
          (fun j => fmt2 (claim835Payment (r.claims j))) ∧
      ∀ x ∈ (generate_835 n r).1, x ≠ none := by
  refine ⟨rest835 r (resolveCount n r.countDraw), generate_835_eq n r, rfl, rfl,
    rfl, rfl, ?_, ?_⟩
  · rw [clpPayments, generate_835_eq]
    rw [List.filterMap_cons_none (by simp [bpr835, clpExtract])]
    rw [rest835, List.filterMap_append, List.filterMap_append]
    have hsome : ((fun os : Option Seg => os.bind clpExtract) ∘ some) = clpExtract :=
      rfl
    rw [List.filterMap_map, List.filterMap_map, hsome, filterMap_flatMap]
    simp only [claim835_clp]
    rw [flatMap_singleton_map]
    have hpre : (pre835Segs r).filterMap clpExtract = [] := by
      simp [pre835Segs, clpExtract]
    rw [hpre]
    by_cases hplb : plbAdj835 r ≠ 0
    · rw [if_pos hplb]
      simp [clpExtract]
    · rw [if_neg hplb]
      simp
  · intro x hx
    rw [generate_835_eq] at hx
    rcases List.mem_cons.mp hx with rfl | hx
    · simp
    · rw [rest835] at hx
      rcases List.mem_append.mp hx with hx | hx
      · rcases List.mem_append.mp hx with hx | hx
        · obtain ⟨s, _, rfl⟩ := List.mem_map.mp hx
          simp
        · obtain ⟨s, _, rfl⟩ := List.mem_map.mp hx
          simp
      · by_cases hplb : plbAdj835 r ≠ 0
        · rw [if_pos hplb] at hx
          simp only [List.mem_singleton] at hx
          subst hx
          simp
        · rw [if_neg hplb] at hx
          simp at hx
/-- The (hl_id, parent_hl_id) element pair of an HL segment, nothing otherwise. -/
def hlExtract (s : Seg) : Option (String × String) :=
  if s.sid = "HL" then some (s.els.headD "", (s.els.drop 1).headD "") else none

/-- The HL (id, parent) pairs of a body segment list, in emission order. -/
def hlPairs (segs : List Seg) : List (String × String) :=
  segs.filterMap hlExtract

/-- Validity of an HL sequence: the ids are dense and strictly increasing from
1 (the i-th HL carries id `str(i+1)`), and every non-empty parent names an id
`p` with `1 ≤ p ≤ i`, i.e. numerically smaller than the own id and emitted by
an earlier HL of the same sequence. -/
def HLForestOK (ps : List (String × String)) : Prop :=
  ∀ i, (h : i < ps.length) → (ps.get ⟨i, h⟩).1 = Nat.repr (i + 1) ∧
    ((ps.get ⟨i, h⟩).2 = "" ∨
      ∃ p, 1 ≤ p ∧ p ≤ i ∧ (ps.get ⟨i, h⟩).2 = Nat.repr p)

/-- One 837P claim block contains exactly its subscriber HL. -/
theorem claim837_hl (hl : Nat) (pn pid : String) (c : Claim837Rand) :
    hlPairs (claim837Segs hl pn pid c) = [(Nat.repr hl, "1")] := by
  unfold hlPairs claim837Segs
  rw [List.filterMap_append, filterMap_flatMap]
  have hsvc : ∀ ip : Nat × Proc,
      (svcLine837 c.posCode c.serviceDate ip.1 ip.2).filterMap hlExtract = [] := by
    intro ip
    simp [svcLine837, hlExtract]
  simp only [hsvc]
  rw [flatMap_nil_fun]
  simp [hlExtract]

/-- One 270 subscriber block contains exactly its HL. -/
theorem sub270_hl (hl : Nat) (pid : String) (s : Sub270Rand) :
    hlPairs (sub270Segs hl pid s) = [(Nat.repr hl, Nat.repr 2)] := by
  unfold hlPairs sub270Segs
  rw [List.filterMap_append]
  have heq : ∀ code : String,
      hlExtract (Seg.mk "EQ" [code]) = none := fun code => rfl
  rw [List.filterMap_map]
  have : (hlExtract ∘ fun code => Seg.mk "EQ" [code]) = fun _ => none :=
    funext (fun code => rfl)
  rw [this]
  simp [hlExtract]

/-- Benefit blocks of the 271 contain no HL segment. -/
theorem benefit271_hl_none (plan : String) (b : Benefit271) :
    (benefit271Segs plan b).filterMap hlExtract = [] := by
  by_cases h1 : b.infoType = "B" <;> by_cases h2 : b.infoType = "F" <;>
    by_cases h3 : b.svcCode = "PT" ∨ b.svcCode = "OT" ∨ b.svcCode = "33" <;>
      simp [benefit271Segs, h1, h2, h3, hlExtract]

/-- One 271 subscriber block contains exactly its HL. -/
theorem sub271_hl (hl : Nat) (pid : String) (s : Sub271Rand) :
    hlPairs (sub271Segs hl pid s) = [(Nat.repr hl, Nat.repr 2)] := by
  unfold hlPairs sub271Segs
  rw [List.filterMap_append]
  by_cases ha : s.isActive
  · rw [if_pos ha]
    rw [List.filterMap_append, List.filterMap_append, List.filterMap_append,
        filterMap_flatMap]
    simp only [benefit271_hl_none]
    rw [flatMap_nil_fun]
    by_cases hd : s.deductible > 0 <;> simp [hd, hlExtract]
  · rw [if_neg ha]
    simp [hlExtract]

/-- One 278 request block contains exactly its three chained HLs. -/
theorem req278_hl (hl : Nat) (pn pid : String) (q : Req278Rand) :
    hlPairs (req278Segs hl pn pid q) =
      [(Nat.repr (hl + 1), Nat.repr 1),
       (Nat.repr (hl + 2), Nat.repr (hl + 1)),
       (Nat.repr (hl + 3), Nat.repr (hl + 2))] := by
  unfold hlPairs req278Segs
  rw [List.filterMap_append, List.filterMap_append]
  rw [List.filterMap_map]
  have hsv : (hlExtract ∘ fun pq : Proc × Nat =>
      Seg.mk "SV1" ["HC:" ++ pq.1.cpt, fmt2 pq.1.price, "UN", Nat.repr pq.2]) =
      fun _ => none := funext (fun pq => rfl)
  rw [hsv]
  by_cases hc : q.certType = "R" ∨ q.certType = "E" <;> simp [hc, hlExtract]
/-- `hlPairs` distributes over append. -/
theorem hlPairs_append (a b : List Seg) : hlPairs (a ++ b) = hlPairs a ++ hlPairs b :=
  List.filterMap_append a b hlExtract

/-- Closed form of the HL pairs emitted by the 837P claims loop. -/
theorem hl_loop_837 (f : Nat → Claim837Rand) (pn pid : String) :
    ∀ (k hl j : Nat), hlPairs (claims837Loop f pn pid hl j k) =
      (List.range k).map (fun t => (Nat.repr (hl + t + 1), "1")) := by
  intro k
  induction k with
  | zero => intro hl j; rfl
  | succ k ih =>
    intro hl j
    show hlPairs (claim837Segs (hl + 1) pn pid (f j)
        ++ claims837Loop f pn pid (hl + 1) (j + 1) k) = _
    rw [hlPairs_append, claim837_hl, ih (hl + 1) (j + 1), List.range_succ_eq_map,
        List.map_cons, List.map_map]
    refine congrArg₂ List.cons rfl ?_
    apply List.map_congr_left
    intro t _
    simp only [Function.comp]
    have harith : hl + 1 + t + 1 = hl + Nat.succ t + 1 := by omega
    rw [harith]

/-- Closed form of the HL pairs emitted by the 270 subscriber loop. -/
theorem hl_loop_270 (f : Nat → Sub270Rand) (pid : String) :
    ∀ (k hl j : Nat), hlPairs (subs270Loop f pid hl j k) =
      (List.range k).map (fun t => (Nat.repr (hl + t + 1), Nat.repr 2)) := by
  intro k
  induction k with
  | zero => intro hl j; rfl
  | succ k ih =>
    intro hl j
    show hlPairs (sub270Segs (hl + 1) pid (f j)
        ++ subs270Loop f pid (hl + 1) (j + 1) k) = _
    rw [hlPairs_append, sub270_hl, ih (hl + 1) (j + 1), List.range_succ_eq_map,
        List.map_cons, List.map_map]
    refine congrArg₂ List.cons rfl ?_
    apply List.map_congr_left
    intro t _
    simp only [Function.comp]
    have harith : hl + 1 + t + 1 = hl + Nat.succ t + 1 := by omega
    rw [harith]

/-- Closed form of the HL pairs emitted by the 271 subscriber loop. -/
theorem hl_loop_271 (f : Nat → Sub271Rand) (pid : String) :
    ∀ (k hl j : Nat), hlPairs (subs271Loop f pid hl j k) =
      (List.range k).map (fun t => (Nat.repr (hl + t + 1), Nat.repr 2)) := by
  intro k
  induction k with
  | zero => intro hl j; rfl
  | succ k ih =>
    intro hl j
    show hlPairs (sub271Segs (hl + 1) pid (f j)
        ++ subs271Loop f pid (hl + 1) (j + 1) k) = _
    rw [hlPairs_append, sub271_hl, ih (hl + 1) (j + 1), List.range_succ_eq_map,
        List.map_cons, List.map_map]
    refine congrArg₂ List.cons rfl ?_
    apply List.map_congr_left
    intro t _
    simp only [Function.comp]
    have harith : hl + 1 + t + 1 = hl + Nat.succ t + 1 := by omega
    rw [harith]

/-- Closed form of the HL pairs emitted by the 278 request loop: three chained
HLs per request. -/
theorem hl_loop_278 (f : Nat → Req278Rand) (pn pid : String) :
    ∀ (k hl j : Nat), hlPairs (reqs278Loop f pn pid hl j k) =
      (List.range (3 * k)).map (fun t =>
        (Nat.repr (hl + t + 1),
         if t % 3 = 0 then Nat.repr 1 else Nat.repr (hl + t))) := by
  intro k
  induction k with
  | zero => intro hl j; rfl
  | succ k ih =>
    intro hl j
    show hlPairs (req278Segs hl pn pid (f j)
        ++ reqs278Loop f pn pid (hl + 3) (j + 1) k) = _
    rw [hlPairs_append, req278_hl, ih (hl + 3) (j + 1)]
    have h3 : 3 * (k + 1) = 3 + 3 * k := by ring
    rw [h3, List.range_add, List.map_append, List.map_map]
    refine congrArg₂ List.append rfl ?_
    apply List.map_congr_left
    intro t _
    simp only [Function.comp]
    have hm : (3 + t) % 3 = t % 3 := Nat.add_mod_left 3 t
    have h1 : hl + (3 + t) + 1 = hl + 3 + t + 1 := by omega
    have h2 : hl + (3 + t) = hl + 3 + t := by omega
    rw [hm, h1, h2]
/-- HL pairs of the 837P header. -/
theorem hlPairs_header837 (r : Rand837p) :
    hlPairs (header837 r) = [(Nat.repr 1, "")] := by
  simp [header837, hlPairs, hlExtract]

/-- HL pairs of the whole 837P body: the billing-provider HL then one
subscriber HL per claim, all parented on id 1. -/
theorem hlPairs_837p (n : Option Nat) (r : Rand837p) :
    hlPairs (generate_837p n r).1 =
      (Nat.repr 1, "") :: (List.range (resolveCount n r.countDraw)).map
        (fun t => (Nat.repr (t + 2), "1")) := by
  show hlPairs (header837 r
      ++ claims837Loop r.claims r.payerName r.payerId 1 0 (resolveCount n r.countDraw)) = _
  rw [hlPairs_append, hlPairs_header837, hl_loop_837]
  refine congrArg₂ List.append rfl ?_
  apply List.map_congr_left
  intro t _
  have harith : 1 + t + 1 = t + 2 := by omega
  rw [harith]

/-- HL pairs of the 270 header. -/
theorem hlPairs_header270 (r : Rand270) :
    hlPairs (header270 r) = [(Nat.repr 1, ""), (Nat.repr 2, Nat.repr 1)] := by
  simp [header270, hlPairs, hlExtract]

/-- HL pairs of the whole 270 body. -/
theorem hlPairs_270 (n : Option Nat) (r : Rand270) :
    hlPairs (generate_270 n r).1 =
      (Nat.repr 1, "") :: (Nat.repr 2, Nat.repr 1)
        :: (List.range (resolveCount n r.countDraw)).map
          (fun t => (Nat.repr (t + 3), Nat.repr 2)) := by
  show hlPairs (header270 r
      ++ subs270Loop r.subs r.payerId 2 0 (resolveCount n r.countDraw)) = _
  rw [hlPairs_append, hlPairs_header270, hl_loop_270]
  show [(Nat.repr 1, ""), (Nat.repr 2, Nat.repr 1)] ++ _ = _
  rw [List.cons_append, List.cons_append, List.nil_append]
  refine congrArg₂ List.cons rfl (congrArg₂ List.cons rfl ?_)
  apply List.map_congr_left
  intro t _
  have harith : 2 + t + 1 = t + 3 := by omega
  rw [harith]

/-- HL pairs of the 271 header. -/
theorem hlPairs_header271 (r : Rand271) :
    hlPairs (header271 r) = [(Nat.repr 1, ""), (Nat.repr 2, Nat.repr 1)] := by
  simp [header271, hlPairs, hlExtract]

/-- HL pairs of the whole 271 body. -/
theorem hlPairs_271 (n : Option Nat) (r : Rand271) :
    hlPairs (generate_271 n r).1 =
      (Nat.repr 1, "") :: (Nat.repr 2, Nat.repr 1)
        :: (List.range (resolveCount n r.countDraw)).map
          (fun t => (Nat.repr (t + 3), Nat.repr 2)) := by
  show hlPairs (header271 r
      ++ subs271Loop r.subs r.payerId 2 0 (resolveCount n r.countDraw)) = _
  rw [hlPairs_append, hlPairs_header271, hl_loop_271]
  show [(Nat.repr 1, ""), (Nat.repr 2, Nat.repr 1)] ++ _ = _
  rw [List.cons_append, List.cons_append, List.nil_append]
  refine congrArg₂ List.cons rfl (congrArg₂ List.cons rfl ?_)
  apply List.map_congr_left
  intro t _
  have harith : 2 + t + 1 = t + 3 := by omega
  rw [harith]

/-- HL pairs of the 278 header. -/
theorem hlPairs_header278 (r : Rand278) :
    hlPairs (header278 r) = [(Nat.repr 1, "")] := by
  simp [header278, hlPairs, hlExtract]

/-- HL pairs of the whole 278 body: the UMO HL then three chained HLs per
request. -/
theorem hlPairs_278 (n : Option Nat) (r : Rand278) :
    hlPairs (generate_278 n r).1 =
      (Nat.repr 1, "") :: (List.range (3 * resolveCount n r.countDraw)).map
        (fun t => (Nat.repr (t + 2),
          if t % 3 = 0 then Nat.repr 1 else Nat.repr (t + 1))) := by
  show hlPairs (header278 r
      ++ reqs278Loop r.reqs r.payerName r.payerId 1 0 (resolveCount n r.countDraw)) = _
  rw [hlPairs_append, hlPairs_header278, hl_loop_278]
  refine congrArg₂ List.append rfl ?_
  apply List.map_congr_left
  intro t _
  have h1 : 1 + t + 1 = t + 2 := by omega
  have h2 : 1 + t = t + 1 := by omega
  rw [h1, h2]
/-- Forest validity for the 837P shape: one root HL then per-claim HLs all
parented on id 1. -/
theorem hlforest_shape837 (n : Nat) :
    HLForestOK ((Nat.repr 1, "") :: (List.range n).map
      (fun t => (Nat.repr (t + 2), "1"))) := by
  intro i h
  cases i with
  | zero => exact ⟨rfl, Or.inl rfl⟩
  | succ t =>
    have hlen : t < n := by
      simp only [List.length_cons, List.length_map, List.length_range] at h
      omega
    have hget : (((Nat.repr 1, "") :: (List.range n).map
        (fun t => (Nat.repr (t + 2), "1"))).get ⟨t + 1, h⟩) =
        (Nat.repr (t + 2), "1") := by
      simp
    rw [hget]
    exact ⟨rfl, Or.inr ⟨1, Nat.le_refl 1, by omega, rfl⟩⟩

/-- Forest validity for the 270/271 shape: root HL, provider HL parented on 1,
subscriber HLs parented on 2. -/
theorem hlforest_shape270 (n : Nat) :
    HLForestOK ((Nat.repr 1, "") :: (Nat.repr 2, Nat.repr 1)
      :: (List.range n).map (fun t => (Nat.repr (t + 3), Nat.repr 2))) := by
  intro i h
  cases i with
  | zero => exact ⟨rfl, Or.inl rfl⟩
  | succ i1 =>
    cases i1 with
    | zero => exact ⟨rfl, Or.inr ⟨1, Nat.le_refl 1, Nat.le_refl 1, rfl⟩⟩
    | succ t =>
      have hlen : t < n := by
        simp only [List.length_cons, List.length_map, List.length_range] at h
        omega
      have hget : (((Nat.repr 1, "") :: (Nat.repr 2, Nat.repr 1)
          :: (List.range n).map (fun t => (Nat.repr (t + 3), Nat.repr 2))).get
            ⟨t + 2, h⟩) = (Nat.repr (t + 3), Nat.repr 2) := by
        simp
      rw [hget]
      exact ⟨rfl, Or.inr ⟨2, by omega, by omega, rfl⟩⟩

/-- Forest validity for the 278 shape: root HL then chained triples, the first
HL of each triple parented on 1 and the others on their predecessor. -/
theorem hlforest_shape278 (m : Nat) :
    HLForestOK ((Nat.repr 1, "") :: (List.range m).map
      (fun t => (Nat.repr (t + 2),
        if t % 3 = 0 then Nat.repr 1 else Nat.repr (t + 1)))) := by
  intro i h
  cases i with
  | zero => exact ⟨rfl, Or.inl rfl⟩
  | succ t =>
    have hlen : t < m := by
      simp only [List.length_cons, List.length_map, List.length_range] at h
      omega
    have hget : (((Nat.repr 1, "") :: (List.range m).map
        (fun t => (Nat.repr (t + 2),
          if t % 3 = 0 then Nat.repr 1 else Nat.repr (t + 1)))).get ⟨t + 1, h⟩) =
        (Nat.repr (t + 2), if t % 3 = 0 then Nat.repr 1 else Nat.repr (t + 1)) := by
      simp
    rw [hget]
    refine ⟨rfl, Or.inr ?_⟩
    by_cases ht : t % 3 = 0
    · exact ⟨1, Nat.le_refl 1, by omega, by rw [if_pos ht]⟩
    · exact ⟨t + 1, by omega, Nat.le_refl (t + 1), by rw [if_neg ht]⟩

/-- C4: in every body produced by the 837P, 270, 271 and 278 generators, the
HL ids are strictly increasing starting at 1 (in fact dense), and every HL
with a non-empty parent element names an id that is numerically smaller than
its own and was emitted by an earlier HL of the same sequence. -/
theorem hl_forest_validity :
    (∀ (n : Option Nat) (r : Rand837p), HLForestOK (hlPairs (generate_837p n r).1)) ∧
    (∀ (n : Option Nat) (r : Rand270), HLForestOK (hlPairs (generate_270 n r).1)) ∧
    (∀ (n : Option Nat) (r : Rand271), HLForestOK (hlPairs (generate_271 n r).1)) ∧
    (∀ (n : Option Nat) (r : Rand278), HLForestOK (hlPairs (generate_278 n r).1)) := by
  refine ⟨fun n r => ?_, fun n r => ?_, fun n r => ?_, fun n r => ?_⟩
  · rw [hlPairs_837p]
    exact hlforest_shape837 _
  · rw [hlPairs_270]
    exact hlforest_shape270 _
  · rw [hlPairs_271]
    exact hlforest_shape270 _
  · rw [hlPairs_278]
    exact hlforest_shape278 _
/-- Witness for the HL forest validity, at concrete draw records and indices. -/
theorem hl_forest_validity_witness :
    (((hlPairs (generate_837p none rand837pW).1).get ⟨0, by decide⟩).1 =
        Nat.repr (0 + 1) ∧
      (((hlPairs (generate_837p none rand837pW).1).get ⟨0, by decide⟩).2 = "" ∨
        ∃ p, 1 ≤ p ∧ p ≤ 0 ∧
          ((hlPairs (generate_837p none rand837pW).1).get ⟨0, by decide⟩).2 =
            Nat.repr p)) ∧
    (((hlPairs (generate_270 none rand270W).1).get ⟨1, by decide⟩).1 =
        Nat.repr (1 + 1) ∧
      (((hlPairs (generate_270 none rand270W).1).get ⟨1, by decide⟩).2 = "" ∨
        ∃ p, 1 ≤ p ∧ p ≤ 1 ∧
          ((hlPairs (generate_270 none rand270W).1).get ⟨1, by decide⟩).2 =
            Nat.repr p)) ∧
    (((hlPairs (generate_271 none rand271W).1).get ⟨1, by decide⟩).1 =
        Nat.repr (1 + 1) ∧
      (((hlPairs (generate_271 none rand271W).1).get ⟨1, by decide⟩).2 = "" ∨
        ∃ p, 1 ≤ p ∧ p ≤ 1 ∧
          ((hlPairs (generate_271 none rand271W).1).get ⟨1, by decide⟩).2 =
            Nat.repr p)) ∧
    (((hlPairs (generate_278 none rand278W).1).get ⟨1, by decide⟩).1 =
        Nat.repr (1 + 1) ∧
      (((hlPairs (generate_278 none rand278W).1).get ⟨1, by decide⟩).2 = "" ∨
        ∃ p, 1 ≤ p ∧ p ≤ 1 ∧
          ((hlPairs (generate_278 none rand278W).1).get ⟨1, by decide⟩).2 =
            Nat.repr p)) :=
  ⟨hl_forest_validity.1 none rand837pW 0 (by decide),
   hl_forest_validity.2.1 none rand270W 1 (by decide),
   hl_forest_validity.2.2.1 none rand271W 1 (by decide),
   hl_forest_validity.2.2.2 none rand278W 1 (by decide)⟩
